import Mathlib

/-!
# Address-space manager of `src/vm/addrspace.c` (the `OPT_A3` configuration)

A shallow embedding of the demand-paged address-space code: the life cycle
(`as_create`, `as_free_segments`, `as_destroy`, `as_activate`), segment
bookkeeping (`as_define_region`, `as_define_stack`), address validation
(`as_valid_read_addr`, `as_valid_write_addr`), segment lookup
(`as_get_segment`) and the fault dispatcher (`vm_fault`).

Conventions of the embedding

* `vaddr_t`, `size_t` and `u_int32_t` are 32-bit unsigned; they are natural
  numbers here and every operation that can leave the 32-bit range is reduced
  modulo `2 ^ 32` explicitly.
* `AS_NUM_SEG`, the number of segment slots (a macro of the absent
  `addrspace.h`), is a parameter of every function that uses it.
* A pointer `&as->segments[i]` is the slot index `i`; `NULL` is `none`.
* `assert` aborts the kernel: a function whose assertion fails yields `none`
  instead of a return value.
* Calls into the collaborators that are not part of this file (`thread_exit`,
  `pt_page_in`, `pt_create`, ...) are recorded in a list of `vm_event`s.
-/

namespace AddrSpace

/-! ## Constants of the headers -/

/-- Modelled from the spec: `PAGE_SIZE` of the absent header `machine/vm.h`;
the value is the 4 KiB page of the MIPS port the code is written for. -/
def PAGE_SIZE : Nat := 4096

/-- Modelled from the spec: `PAGE_FRAME` of the absent header `machine/vm.h`,
the mask that keeps the page number of a 32-bit address. -/
def PAGE_FRAME : Nat := 0xfffff000

/-- Modelled from the spec: `USERTOP` of the absent header `machine/vm.h`,
the first address above user space. -/
def USERTOP : Nat := 0x80000000

/-- The constant `DUMBVM_STACKPAGES` defined at the top of `addrspace.c`. -/
def DUMBVM_STACKPAGES : Nat := 12

/-- Modelled from the spec: execute-permission bit `PF_X` of the absent `elf.h`. -/
def PF_X : Nat := 1

/-- Modelled from the spec: write-permission bit `PF_W` of the absent `elf.h`. -/
def PF_W : Nat := 2

/-- Modelled from the spec: fault code `VM_FAULT_READ` of the absent `vm.h`. -/
def VM_FAULT_READ : Nat := 0

/-- Modelled from the spec: fault code `VM_FAULT_WRITE` of the absent `vm.h`. -/
def VM_FAULT_WRITE : Nat := 1

/-- Modelled from the spec: fault code `VM_FAULT_READONLY` of the absent `vm.h`. -/
def VM_FAULT_READONLY : Nat := 2

/-- Modelled from the spec: error code `EUNIMP` ("too many regions") of the
absent `kern/errno.h`. Of the three error codes only that they are non-zero
and distinct is used. -/
def EUNIMP : Nat := 1

/-- Modelled from the spec: error code `EFAULT` of the absent `kern/errno.h`. -/
def EFAULT : Nat := 6

/-- Modelled from the spec: error code `EINVAL` of the absent `kern/errno.h`. -/
def EINVAL : Nat := 8

/-- Modelled from the spec: the raised interrupt priority that `splhigh`
installs (absent `machine/spl.h`); the number only names that level. -/
def SPL_HIGH : Nat := 15

/-- Number of values of a 32-bit unsigned integer. -/
def WORD : Nat := 2 ^ 32

/-- The size in bytes of a `vaddr_t` object, the scale of arithmetic on a
`vaddr_t *`. -/
def SIZEOF_VADDR_T : Nat := 4

/-! ## Data model -/

/-- One entry `page_details[j]` of a page table; only the frame number is
read by this file. -/
structure page_detail where
  pfn : Nat
deriving DecidableEq, Repr

/-- Modelled from the spec: the page table of the absent `pt.h`, as far as
this file reads it (`size` and `page_details[j].pfn`). -/
structure pagetable where
  size : Nat
  page_details : List page_detail
deriving DecidableEq, Repr

/-- Modelled from the spec: `struct segment` of the absent `segments.h`, with
the fields that `addrspace.c` reads and writes. Integer fields keep their
numeric value (`active` and `writeable` are integers in the code, not
booleans). -/
structure segment where
  active : Nat
  vbase : Nat
  size : Nat
  writeable : Nat
  pt : Option pagetable
  p_offset : Nat
  p_filesz : Nat
  p_memsz : Nat
  p_flags : Nat
deriving DecidableEq, Repr

/-- Modelled from the spec: `struct addrspace` of the absent `addrspace.h`.
`segments i` is the slot `as->segments[i]`; the array has `AS_NUM_SEG` slots
and the code reads and writes the indices below `AS_NUM_SEG` only. -/
structure addrspace where
  segments : Nat → segment
  num_segments : Nat
  file : Option Nat

/-- Calls into the collaborators outside this file, in program order. -/
inductive vm_event where
  | thread_exit
  | pt_page_in (faultaddress : Nat) (seg : Nat)
  | pt_create (seg : Nat)
  | pt_destroy (seg : Nat)
  | cm_release_frame (pfn : Nat)
  | tlb_context_switch
  | kprintf
  | kfree_segments
  | kfree_as
deriving DecidableEq, Repr

/-! ## Segment lookup and address validation -/

/-- The loop `for (i = 0; i < AS_NUM_SEG; i++) if (hit i) return i;`:
`first_slot hit k i` runs the `k` remaining iterations starting at index `i`
and yields the first index whose test succeeds. -/
def first_slot (hit : Nat → Bool) : Nat → Nat → Option Nat
  | 0, _ => none
  | k + 1, i => if hit i then some i else first_slot hit k (i + 1)

/-- The test of `as_get_segment` on one slot:
`active == 1 && v >= vbase && v < vbase + size * PAGE_SIZE` in 32-bit
unsigned arithmetic. -/
def segment_holds (s : segment) (v : Nat) : Bool :=
  decide (s.active = 1) && decide (s.vbase ≤ v) &&
    decide (v < (s.vbase + (s.size * PAGE_SIZE) % WORD) % WORD)

/-- The function `as_get_segment`: the first slot whose test succeeds, or `NULL`. -/
def as_get_segment (AS_NUM_SEG : Nat) (as : addrspace) (v : Nat) : Option Nat :=
  first_slot (fun i => segment_holds (as.segments i) v) AS_NUM_SEG 0

/-- The test shared by `as_valid_read_addr` and `as_valid_write_addr` on one
slot: `active` is non-zero and
`check_addr >= (vaddr_t *) vbase && check_addr < (vaddr_t *) vbase + PAGE_SIZE * size`.
The cast binds tighter than `+`, so the upper bound is pointer arithmetic on a
`vaddr_t *`: the integer `PAGE_SIZE * size` is scaled by `sizeof (vaddr_t)`. -/
def segment_valid (s : segment) (check_addr : Nat) : Bool :=
  decide (s.active ≠ 0) && decide (s.vbase ≤ check_addr) &&
    decide (check_addr < (s.vbase + SIZEOF_VADDR_T * ((PAGE_SIZE * s.size) % WORD)) % WORD)

/-- The function `as_valid_read_addr`. -/
def as_valid_read_addr (AS_NUM_SEG : Nat) (as : addrspace) (check_addr : Nat) : Nat :=
  if ¬ (check_addr < USERTOP) then 0
  else match first_slot (fun i => segment_valid (as.segments i) check_addr) AS_NUM_SEG 0 with
    | some _ => 1
    | none => 0

/-- The function `as_valid_write_addr`; its body is the body of
`as_valid_read_addr`. -/
def as_valid_write_addr (AS_NUM_SEG : Nat) (as : addrspace) (check_addr : Nat) : Nat :=
  if ¬ (check_addr < USERTOP) then 0
  else match first_slot (fun i => segment_valid (as.segments i) check_addr) AS_NUM_SEG 0 with
    | some _ => 1
    | none => 0

/-! ## The fault dispatcher -/

/-- What a call of `vm_fault` leaves behind: the value returned (`none` when
`assert(s != NULL)` fails), the interrupt priority at that point, and the
collaborator calls made. -/
structure fault_result where
  ret : Option Nat
  spl : Nat
  events : List vm_event
deriving DecidableEq, Repr

/-- The tail of `vm_fault` after the `switch`: look the segment up, assert it
exists, restore the interrupt priority and page in. -/
def vm_fault_page_in (AS_NUM_SEG : Nat) (spl : Nat) (as : addrspace)
    (faultaddress : Nat) : fault_result :=
  match as_get_segment AS_NUM_SEG as faultaddress with
  | none => { ret := none, spl := SPL_HIGH, events := [] }
  | some s => { ret := some 0, spl := spl, events := [vm_event.pt_page_in faultaddress s] }

/-- The function `vm_fault`. `curspl` is the interrupt priority on entry
(saved by `spl = splhigh()`), `t_vmspace` is `curthread->t_vmspace`. The
statement `return EFAULT` that follows `thread_exit()` is kept as written, and
so is the absence of `splx` on the paths that return `EFAULT`. The `DEBUG`
trace lines have no effect on the state and are left out. -/
def vm_fault (AS_NUM_SEG : Nat) (curspl : Nat) (t_vmspace : Option addrspace)
    (faulttype : Nat) (faultaddress : Nat) : fault_result :=
  let spl := curspl
  let faultaddress := faultaddress &&& PAGE_FRAME
  match t_vmspace with
  | none => { ret := some EFAULT, spl := SPL_HIGH, events := [] }
  | some as =>
    if faulttype = VM_FAULT_READONLY then
      { ret := some EFAULT, spl := SPL_HIGH, events := [vm_event.thread_exit] }
    else if faulttype = VM_FAULT_WRITE then
      if as_valid_write_addr AS_NUM_SEG as faultaddress = 0 then
        { ret := some EFAULT, spl := SPL_HIGH, events := [vm_event.thread_exit] }
      else vm_fault_page_in AS_NUM_SEG spl as faultaddress
    else if faulttype = VM_FAULT_READ then
      if as_valid_read_addr AS_NUM_SEG as faultaddress = 0 then
        { ret := some EFAULT, spl := SPL_HIGH, events := [vm_event.thread_exit] }
      else vm_fault_page_in AS_NUM_SEG spl as faultaddress
    else { ret := some EINVAL, spl := spl, events := [] }

/-! ## Region and stack definition -/

/-- The alignment of `as_define_region`: from `(vaddr, sz)` to the stored
`(vbase, npages)`.
`sz += vaddr & ~(vaddr_t) PAGE_FRAME; vaddr &= PAGE_FRAME;
sz = (sz + PAGE_SIZE - 1) & PAGE_FRAME; npages = sz / PAGE_SIZE;` -/
def align_region (vaddr sz : Nat) : Nat × Nat :=
  let sz1 := (sz + (vaddr &&& (PAGE_FRAME ^^^ (WORD - 1)))) % WORD
  let vaddr1 := vaddr &&& PAGE_FRAME
  let sz2 := ((sz1 + PAGE_SIZE - 1) % WORD) &&& PAGE_FRAME
  (vaddr1, sz2 / PAGE_SIZE)

/-- The descriptor that `as_define_region` has written into its slot at the
moment it calls `pt_create` (all fields but `pt`). -/
def region_segment (old : segment) (vaddr sz flags offset filesz : Nat) : segment :=
  { old with
    active := 1
    vbase := (align_region vaddr sz).1
    size := (align_region vaddr sz).2
    writeable := flags &&& PF_W
    p_offset := offset
    p_memsz := sz
    p_filesz := filesz
    p_flags := flags &&& PF_X }

/-- What a call of `as_define_region` leaves behind. -/
structure region_result where
  ret : Nat
  as : addrspace
  events : List vm_event

/-- The function `as_define_region`. `pt_create` is the collaborator that
builds the page table of a descriptor (`none` is `NULL`). The result is
`none` when one of the two assertions fails. -/
def as_define_region (AS_NUM_SEG : Nat) (pt_create : segment → Option pagetable)
    (as : addrspace) (vaddr sz flags offset filesz : Nat) : Option region_result :=
  if as.num_segments < AS_NUM_SEG - 1 then
    if (as.segments as.num_segments).active ≠ 0 then none
    else
      let s := region_segment (as.segments as.num_segments) vaddr sz flags offset filesz
      match pt_create s with
      | none => none
      | some pt =>
        some
          { ret := 0
            as :=
              { as with
                segments := fun j => if j = as.num_segments then { s with pt := some pt }
                  else as.segments j
                num_segments := as.num_segments + 1 }
            events := [vm_event.pt_create as.num_segments] }
  else some { ret := EUNIMP, as := as, events := [vm_event.kprintf] }

/-- The descriptor that `as_define_stack` has written into the last slot at
the moment it calls `pt_create`. -/
def stack_segment (old : segment) : segment :=
  { old with
    active := 1
    vbase := USERTOP - DUMBVM_STACKPAGES * PAGE_SIZE
    size := DUMBVM_STACKPAGES
    writeable := 1
    p_offset := 0
    p_filesz := 0
    p_memsz := 0
    p_flags := 0 }

/-- What a call of `as_define_stack` leaves behind; `stackptr` is the value
stored through the output pointer. -/
structure stack_result where
  ret : Nat
  as : addrspace
  stackptr : Nat
  events : List vm_event

/-- The function `as_define_stack`. -/
def as_define_stack (AS_NUM_SEG : Nat) (pt_create : segment → Option pagetable)
    (as : addrspace) : stack_result :=
  let s := stack_segment (as.segments (AS_NUM_SEG - 1))
  { ret := 0
    as :=
      { as with
        segments := fun j => if j = AS_NUM_SEG - 1 then { s with pt := pt_create s }
          else as.segments j }
    stackptr := USERTOP
    events := [vm_event.pt_create (AS_NUM_SEG - 1)] }

/-! ## Concrete address spaces used as test inputs -/

/-- A descriptor with every field zero. -/
def zero_segment : segment :=
  { active := 0, vbase := 0, size := 0, writeable := 0, pt := none,
    p_offset := 0, p_filesz := 0, p_memsz := 0, p_flags := 0 }

/-- An address space with no segment defined. -/
def empty_as : addrspace :=
  { segments := fun _ => zero_segment, num_segments := 0, file := none }

/-- A page-table collaborator that always delivers an empty table. -/
def pt_create_ok (_ : segment) : Option pagetable :=
  some { size := 0, page_details := [] }

/-- A page-table collaborator that is out of memory. -/
def pt_create_null (_ : segment) : Option pagetable := none

/-- The slots of `full_as`. -/
def full_segments : Nat → segment
  | 0 => { zero_segment with active := 1, vbase := 0x400000, size := 1 }
  | 1 => { zero_segment with active := 1, vbase := 0x10000000, size := 2, writeable := 2 }
  | _ => zero_segment

/-- An address space whose `AS_NUM_SEG - 1 = 2` region slots are taken. -/
def full_as : addrspace :=
  { segments := full_segments, num_segments := 2, file := none }

/-- The scenario of the specification, built by the code itself with
`AS_NUM_SEG = 3`: a read-and-execute code region `[0x1000, 0x3000)` defined on
the empty address space (flags `PF_R | PF_X = 5`, so not writeable), then the
stack. -/
def scenario_as : addrspace :=
  match as_define_region 3 pt_create_ok empty_as 0x1000 0x2000 5 0 0x2000 with
  | some r => (as_define_stack 3 pt_create_ok r.as).as
  | none => empty_as

/-- The address space after one region of 768 MiB at 1 GiB has been defined on
the empty address space with `AS_NUM_SEG = 3`; the region ends at
`0x70000000`, below `USERTOP`. -/
def large_region_as : addrspace :=
  match as_define_region 3 pt_create_ok empty_as 0x40000000 0x30000000 6 0 0 with
  | some r => r.as
  | none => empty_as

/-! ## The fault dispatcher, step by step -/

/-- One step of `vm_fault` in program order: a change of the interrupt
priority or a call into a collaborator. -/
inductive vm_step where
  | splhigh
  | splx (spl : Nat)
  | call (e : vm_event)
deriving DecidableEq, Repr

/-- The value returned by `vm_fault` (`none` when `assert(s != NULL)` fails)
and the steps taken up to that point, in program order. -/
structure fault_trace where
  ret : Option Nat
  steps : List vm_step
deriving DecidableEq, Repr

/-- The tail of `vm_fault` after the `switch`, with its steps in order:
`as_get_segment`, `assert(s != NULL)`, `splx(spl)`, `pt_page_in`, `return 0`. -/
def vm_fault_page_in_steps (AS_NUM_SEG : Nat) (spl : Nat) (as : addrspace)
    (faultaddress : Nat) : fault_trace :=
  match as_get_segment AS_NUM_SEG as faultaddress with
  | none => { ret := none, steps := [vm_step.splhigh] }
  | some s =>
    { ret := some 0
      steps := [vm_step.splhigh, vm_step.splx spl,
        vm_step.call (vm_event.pt_page_in faultaddress s)] }

/-- The function `vm_fault` once more, recording the order of `splhigh`,
`splx` and the collaborator calls. -/
def vm_fault_steps (AS_NUM_SEG : Nat) (curspl : Nat) (t_vmspace : Option addrspace)
    (faulttype : Nat) (faultaddress : Nat) : fault_trace :=
  let spl := curspl
  let faultaddress := faultaddress &&& PAGE_FRAME
  match t_vmspace with
  | none => { ret := some EFAULT, steps := [vm_step.splhigh] }
  | some as =>
    if faulttype = VM_FAULT_READONLY then
      { ret := some EFAULT, steps := [vm_step.splhigh, vm_step.call vm_event.thread_exit] }
    else if faulttype = VM_FAULT_WRITE then
      if as_valid_write_addr AS_NUM_SEG as faultaddress = 0 then
        { ret := some EFAULT, steps := [vm_step.splhigh, vm_step.call vm_event.thread_exit] }
      else vm_fault_page_in_steps AS_NUM_SEG spl as faultaddress
    else if faulttype = VM_FAULT_READ then
      if as_valid_read_addr AS_NUM_SEG as faultaddress = 0 then
        { ret := some EFAULT, steps := [vm_step.splhigh, vm_step.call vm_event.thread_exit] }
      else vm_fault_page_in_steps AS_NUM_SEG spl as faultaddress
    else { ret := some EINVAL, steps := [vm_step.splhigh, vm_step.splx spl] }

/-- The interrupt priority after a list of steps, starting from `spl`:
`splhigh` installs `SPL_HIGH`, `splx s` installs `s`. -/
def spl_after : Nat → List vm_step → Nat
  | spl, [] => spl
  | _, vm_step.splhigh :: rest => spl_after SPL_HIGH rest
  | _, vm_step.splx s :: rest => spl_after s rest
  | spl, vm_step.call _ :: rest => spl_after spl rest

/-- The collaborator calls among a list of steps, in order. -/
def calls_of : List vm_step → List vm_event
  | [] => []
  | vm_step.call e :: rest => e :: calls_of rest
  | vm_step.splhigh :: rest => calls_of rest
  | vm_step.splx _ :: rest => calls_of rest

/-! ## Creation, destruction and activation -/

/-- The assignments of one iteration of the loop of `as_create` to a slot. -/
def cleared_segment (old : segment) : segment :=
  { old with
    active := 0
    vbase := 0
    size := 0
    writeable := 0
    pt := none
    p_offset := 0
    p_filesz := 0
    p_memsz := 0
    p_flags := 0 }

/-- The loop `for (i = 0; i < AS_NUM_SEG - 1; i++)` of `as_create`:
`as_create_loop as k i` runs the `k` remaining iterations from index `i`. -/
def as_create_loop : addrspace → Nat → Nat → addrspace
  | as, 0, _ => as
  | as, k + 1, i =>
    as_create_loop
      { as with
        segments := fun j => if j = i then cleared_segment (as.segments i) else as.segments j }
      k (i + 1)

/-- The function `as_create`. `kmalloc` is what the allocator delivers: `NULL`
(`none`) or a block whose contents the code has not written yet. -/
def as_create (AS_NUM_SEG : Nat) (kmalloc : Option addrspace) : Option addrspace :=
  match kmalloc with
  | none => none
  | some as => some { as_create_loop as (AS_NUM_SEG - 1) 0 with file := none, num_segments := 0 }

/-- The entry `pt->page_details[j].pfn`. -/
def pfn_at (pt : pagetable) (j : Nat) : Nat :=
  (pt.page_details.getD j { pfn := 0 }).pfn

/-- The loop `for (j = 0; j < pt->size; j++) cm_release_frame(...)` of
`as_free_segments`: `release_loop pt k j` runs the `k` remaining iterations
from index `j`. -/
def release_loop (pt : pagetable) : Nat → Nat → List vm_event
  | 0, _ => []
  | k + 1, j => vm_event.cm_release_frame (pfn_at pt j) :: release_loop pt k (j + 1)

/-- The body of the outer loop of `as_free_segments` on slot `i`. -/
def free_slot (s : segment) (i : Nat) : List vm_event :=
  if s.active ≠ 0 then
    match s.pt with
    | some pt => release_loop pt pt.size 0 ++ [vm_event.pt_destroy i]
    | none => []
  else []

/-- The outer loop `for (i = 0; i < AS_NUM_SEG; i++)` of `as_free_segments`:
`as_free_segments_loop as k i` runs the `k` remaining iterations from index `i`. -/
def as_free_segments_loop (as : addrspace) : Nat → Nat → List vm_event
  | 0, _ => []
  | k + 1, i => free_slot (as.segments i) i ++ as_free_segments_loop as k (i + 1)

/-- The function `as_free_segments`: the collaborator calls it makes. -/
def as_free_segments (AS_NUM_SEG : Nat) (as : addrspace) : List vm_event :=
  as_free_segments_loop as AS_NUM_SEG 0 ++ [vm_event.kfree_segments]

/-- The function `as_destroy`. -/
def as_destroy (AS_NUM_SEG : Nat) (as : addrspace) : List vm_event :=
  as_free_segments AS_NUM_SEG as ++ [vm_event.kfree_as]

/-- The function `as_activate`. An address space is known here by its
address (`none` is `NULL`); the result is the new value of the global
`last_addrspace` and the collaborator calls made. -/
def as_activate (last_addrspace : Option Nat) (as : Option Nat) :
    Option Nat × List vm_event :=
  (as, if last_addrspace ≠ none ∧ last_addrspace ≠ as then [vm_event.tlb_context_switch]
    else [])

/-- The frame numbers passed to `cm_release_frame` in a list of calls, in order. -/
def released_frames : List vm_event → List Nat
  | [] => []
  | vm_event.cm_release_frame pfn :: rest => pfn :: released_frames rest
  | _ :: rest => released_frames rest

/-- The frames recorded in the page table of a slot that is active and has a
page table: the entries `0 .. pt->size - 1`; no frame for any other slot. -/
def recorded_frames (s : segment) : List Nat :=
  if s.active ≠ 0 then
    match s.pt with
    | some pt => (List.range pt.size).map (pfn_at pt)
    | none => []
  else []

/-! ## The reference alignment rule -/

/-- Number of pages needed for `n` bytes: `n / PAGE_SIZE` rounded up. -/
def ceil_pages (n : Nat) : Nat :=
  if n % PAGE_SIZE = 0 then n / PAGE_SIZE else n / PAGE_SIZE + 1

/-- The alignment rule in the words of the specification: the base is `vaddr`
less its offset in the page, the size is the length extended by that offset,
rounded up to whole pages. -/
def align_region_reference (vaddr sz : Nat) : Nat × Nat :=
  (vaddr - vaddr % PAGE_SIZE, ceil_pages (sz + vaddr % PAGE_SIZE))

/-! ## Sequences of definition calls -/

/-- One call on an address space under construction, with the page-table
collaborator as it behaves during that call. -/
inductive as_call where
  | define_region (pt_create : segment → Option pagetable)
      (vaddr sz flags offset filesz : Nat)
  | define_stack (pt_create : segment → Option pagetable)

/-- The address space after one call; `none` when an assertion of
`as_define_region` aborts. -/
def run_call (AS_NUM_SEG : Nat) (as : addrspace) : as_call → Option addrspace
  | as_call.define_region pt_create vaddr sz flags offset filesz =>
    (as_define_region AS_NUM_SEG pt_create as vaddr sz flags offset filesz).map
      (fun r => r.as)
  | as_call.define_stack pt_create => some (as_define_stack AS_NUM_SEG pt_create as).as

/-- The address space after a sequence of calls, first call first. -/
def run_calls (AS_NUM_SEG : Nat) : addrspace → List as_call → Option addrspace
  | as, [] => some as
  | as, c :: cs =>
    match run_call AS_NUM_SEG as c with
    | none => none
    | some as1 => run_calls AS_NUM_SEG as1 cs

/-- Number of `as_define_region` calls in a sequence. -/
def count_regions : List as_call → Nat
  | [] => 0
  | as_call.define_region _ _ _ _ _ _ :: cs => count_regions cs + 1
  | as_call.define_stack _ :: cs => count_regions cs

/-- The collaborator calls of `as_activate(A); as_activate(B)` started with
`last_addrspace = last`. -/
def activate_pair (last A B : Option Nat) : List vm_event :=
  (as_activate last A).2 ++ (as_activate (as_activate last A).1 B).2

/-- The address space that `as_create` returns with `AS_NUM_SEG = 3` when
`kmalloc` delivers a block that last held the scenario address space. -/
def recycled_as : addrspace :=
  match as_create 3 (some scenario_as) with
  | some as => as
  | none => empty_as

/-- The slots of `paged_as`. -/
def paged_segments : Nat → segment
  | 0 =>
    { zero_segment with
      active := 1
      vbase := 0x400000
      size := 2
      pt := some { size := 2, page_details := [{ pfn := 5 }, { pfn := 6 }] } }
  | 1 =>
    { zero_segment with
      pt := some { size := 1, page_details := [{ pfn := 9 }] } }
  | 2 =>
    { zero_segment with
      active := 1
      vbase := 0x7fff4000
      size := 12
      writeable := 1
      pt := some { size := 1, page_details := [{ pfn := 7 }] } }
  | _ => zero_segment

/-- An address space with resident frames: a region with the frames 5 and 6,
an inactive slot whose stale page table names frame 9, and the stack with
frame 7. -/
def paged_as : addrspace :=
  { segments := paged_segments, num_segments := 1, file := none }

/-- The address space that `as_create` returns with `AS_NUM_SEG = 3` when
`kmalloc` delivers a zeroed block. -/
def fresh_as : addrspace :=
  match as_create 3 (some empty_as) with
  | some as => as
  | none => empty_as

/-- The address space after `as_define_stack` with `AS_NUM_SEG = 3` on a
freshly created address space, at a moment when `pt_create` returns `NULL`. -/
def stack_without_table_as : addrspace :=
  (as_define_stack 3 pt_create_null fresh_as).as

/-! ## Arithmetic of the page masks -/

/-- Masking a 32-bit value with `PAGE_FRAME` rounds it down to a page boundary. -/
theorem land_PAGE_FRAME (v : Nat) (h : v < WORD) :
    v &&& PAGE_FRAME = v / PAGE_SIZE * PAGE_SIZE := by
  have hw : v < 2 ^ 32 := h
  show v &&& 0xfffff000 = v / 4096 * 4096
  apply Nat.eq_of_testBit_eq
  intro i
  have e1 : (0xfffff000 : Nat) = 2 ^ 12 * (2 ^ 20 - 1) := by norm_num
  have e2 : (4096 : Nat) = 2 ^ 12 := by norm_num
  rw [Nat.testBit_and, e1, e2, Nat.mul_comm (v / 2 ^ 12), Nat.testBit_mul_pow_two,
    Nat.testBit_mul_pow_two, Nat.testBit_two_pow_sub_one, ← Nat.shiftRight_eq_div_pow,
    Nat.testBit_shiftRight]
  by_cases h1 : 12 ≤ i
  · have key : 12 + (i - 12) = i := by omega
    rw [key]
    by_cases h2 : i < 32
    · have h3 : i - 12 < 20 := by omega
      simp [h1, h3]
    · have h4 : v < 2 ^ i :=
        lt_of_lt_of_le hw (Nat.pow_le_pow_right (by norm_num) (by omega))
      simp [Nat.testBit_lt_two_pow h4]
  · simp [h1]

/-- Masking with `~PAGE_FRAME` keeps the offset inside the page. -/
theorem land_page_offset (v : Nat) : v &&& (PAGE_FRAME ^^^ (WORD - 1)) = v % PAGE_SIZE := by
  have e : PAGE_FRAME ^^^ (WORD - 1) = 2 ^ 12 - 1 := by decide
  rw [e, Nat.and_pow_two_sub_one_eq_mod]
  norm_num [PAGE_SIZE]

/-- The alignment in closed form, for a 32-bit `vaddr`. -/
theorem align_region_eq (vaddr sz : Nat) (hv : vaddr < WORD) :
    align_region vaddr sz =
      (vaddr / PAGE_SIZE * PAGE_SIZE,
        (((sz + vaddr % PAGE_SIZE) % WORD + PAGE_SIZE - 1) % WORD) / PAGE_SIZE) := by
  unfold align_region
  simp only [land_page_offset]
  rw [land_PAGE_FRAME vaddr hv,
    land_PAGE_FRAME _ (Nat.mod_lt _ (by norm_num [WORD]))]
  rw [Nat.mul_div_cancel _ (show 0 < PAGE_SIZE by norm_num [PAGE_SIZE])]

/-- The alignment when the page-rounded end of the region fits in 32 bits. -/
theorem align_region_no_overflow (vaddr sz : Nat)
    (hend : (vaddr + sz + PAGE_SIZE - 1) / PAGE_SIZE * PAGE_SIZE < WORD) :
    align_region vaddr sz =
      (vaddr / PAGE_SIZE * PAGE_SIZE, (sz + vaddr % PAGE_SIZE + PAGE_SIZE - 1) / PAGE_SIZE) := by
  have hv : vaddr < WORD := by
    simp only [PAGE_SIZE, WORD] at hend ⊢
    omega
  rw [align_region_eq vaddr sz hv]
  simp only [PAGE_SIZE, WORD] at hend ⊢
  have h1 : (sz + vaddr % 4096) % 2 ^ 32 = sz + vaddr % 4096 := by
    apply Nat.mod_eq_of_lt; omega
  rw [h1]
  have h2 : (sz + vaddr % 4096 + 4096 - 1) % 2 ^ 32 = sz + vaddr % 4096 + 4096 - 1 := by
    apply Nat.mod_eq_of_lt; omega
  rw [h2]

/-! ## The loop `first_slot` -/

/-- The loop finds nothing exactly when the test fails on every index it visits. -/
theorem first_slot_eq_none (hit : Nat → Bool) (k i : Nat) :
    first_slot hit k i = none ↔ ∀ j, i ≤ j → j < i + k → hit j = false := by
  induction k generalizing i with
  | zero =>
    simp only [first_slot, true_iff]
    intro j h1 h2
    omega
  | succ k ih =>
    simp only [first_slot]
    by_cases hi : hit i = true
    · simp only [hi, if_true, false_iff, reduceCtorEq]
      intro hall
      have := hall i (le_refl i) (by omega)
      simp [hi] at this
    · simp only [hi, if_false, Bool.false_eq_true]
      rw [ih (i + 1)]
      constructor
      · intro hall j h1 h2
        by_cases hj : j = i
        · subst hj; simpa using hi
        · exact hall j (by omega) (by omega)
      · intro hall j h1 h2
        exact hall j (by omega) (by omega)

/-- The loop returns the lowest visited index on which the test succeeds. -/
theorem first_slot_eq_some (hit : Nat → Bool) (k i j : Nat) :
    first_slot hit k i = some j ↔
      i ≤ j ∧ j < i + k ∧ hit j = true ∧ ∀ l, i ≤ l → l < j → hit l = false := by
  induction k generalizing i with
  | zero =>
    simp only [first_slot, reduceCtorEq, false_iff]
    rintro ⟨h1, h2, _⟩
    omega
  | succ k ih =>
    simp only [first_slot]
    by_cases hi : hit i = true
    · simp only [hi, if_true, Option.some.injEq]
      constructor
      · intro h
        subst h
        exact ⟨le_refl _, by omega, hi, fun l h1 h2 => by omega⟩
      · rintro ⟨h1, _, _, h4⟩
        by_contra hne
        have := h4 i (le_refl i) (by omega)
        simp [hi] at this
    · simp only [hi, if_false, Bool.false_eq_true]
      rw [ih (i + 1)]
      constructor
      · rintro ⟨h1, h2, h3, h4⟩
        refine ⟨by omega, by omega, h3, ?_⟩
        intro l hl1 hl2
        by_cases hl : l = i
        · subst hl; simpa using hi
        · exact h4 l (by omega) hl2
      · rintro ⟨h1, h2, h3, h4⟩
        have hne : j ≠ i := by
          rintro rfl
          exact hi h3
        exact ⟨by omega, by omega, h3, fun l hl1 hl2 => h4 l (by omega) hl2⟩

/-! ## `as_define_region` -/

/-- A call that returns 0 took the first branch, passed both assertions and
produced exactly the updated address space. -/
theorem as_define_region_ok (AS_NUM_SEG : Nat) (pt_create : segment → Option pagetable)
    (as : addrspace) (vaddr sz flags offset filesz : Nat) (r : region_result)
    (h : as_define_region AS_NUM_SEG pt_create as vaddr sz flags offset filesz = some r)
    (h0 : r.ret = 0) :
    as.num_segments < AS_NUM_SEG - 1 ∧ (as.segments as.num_segments).active = 0 ∧
    ∃ pt, pt_create (region_segment (as.segments as.num_segments) vaddr sz flags offset filesz)
        = some pt ∧
      r = { ret := 0
            as :=
              { as with
                segments := fun j =>
                  if j = as.num_segments then
                    { region_segment (as.segments as.num_segments) vaddr sz flags offset filesz
                      with pt := some pt }
                  else as.segments j
                num_segments := as.num_segments + 1 }
            events := [vm_event.pt_create as.num_segments] } := by
  unfold as_define_region at h
  by_cases hn : as.num_segments < AS_NUM_SEG - 1
  · rw [if_pos hn] at h
    by_cases ha : (as.segments as.num_segments).active ≠ 0
    · rw [if_pos ha] at h
      exact absurd h (by simp)
    · rw [if_neg ha] at h
      simp only at h
      cases hp : pt_create
          (region_segment (as.segments as.num_segments) vaddr sz flags offset filesz) with
      | none =>
        rw [hp] at h
        exact absurd h (by simp)
      | some pt =>
        rw [hp] at h
        simp only [Option.some.injEq] at h
        exact ⟨hn, by simpa using ha, pt, rfl, h.symm⟩
  · rw [if_neg hn] at h
    simp only [Option.some.injEq] at h
    rw [← h] at h0
    exact absurd h0 (show EUNIMP ≠ 0 by decide)

/-- C1: when `num_segments < AS_NUM_SEG - 1` and the page-rounded end of
`[vaddr, vaddr + sz)` stays inside the 32-bit address range, a call of
`as_define_region` that returns 0 leaves in the slot it occupied a segment
with `vbase ≤ vaddr`, `vaddr + sz ≤ vbase + size * PAGE_SIZE`, and both
`vbase` and `vbase + size * PAGE_SIZE` multiples of `PAGE_SIZE`. -/
theorem as_define_region_covers (AS_NUM_SEG : Nat) (pt_create : segment → Option pagetable)
    (as : addrspace) (vaddr sz flags offset filesz : Nat) (r : region_result)
    (_hn : as.num_segments < AS_NUM_SEG - 1)
    (hend : (vaddr + sz + PAGE_SIZE - 1) / PAGE_SIZE * PAGE_SIZE < WORD)
    (h : as_define_region AS_NUM_SEG pt_create as vaddr sz flags offset filesz = some r)
    (h0 : r.ret = 0) :
    (r.as.segments as.num_segments).vbase ≤ vaddr ∧
    vaddr + sz ≤ (r.as.segments as.num_segments).vbase +
      (r.as.segments as.num_segments).size * PAGE_SIZE ∧
    PAGE_SIZE ∣ (r.as.segments as.num_segments).vbase ∧
    PAGE_SIZE ∣ (r.as.segments as.num_segments).vbase +
      (r.as.segments as.num_segments).size * PAGE_SIZE := by
  obtain ⟨_, _, pt, _, hr⟩ :=
    as_define_region_ok AS_NUM_SEG pt_create as vaddr sz flags offset filesz r h h0
  subst hr
  simp only [if_true, region_segment, align_region_no_overflow vaddr sz hend]
  simp only [PAGE_SIZE, WORD] at hend ⊢
  refine ⟨by omega, by omega, ?_, ?_⟩
  · exact Dvd.intro_left _ rfl
  · rw [← Nat.add_mul]
    exact Dvd.intro_left _ rfl

/-- The hypotheses of `as_define_region_covers` hold for the region
`(0x400123, 0x2345)` defined on the empty address space with three slots. -/
theorem as_define_region_covers_witness :
    empty_as.num_segments < 3 - 1 ∧
    (0x400123 + 0x2345 + PAGE_SIZE - 1) / PAGE_SIZE * PAGE_SIZE < WORD ∧
    ∃ r, as_define_region 3 pt_create_ok empty_as 0x400123 0x2345 5 0 0x2000 = some r ∧
      r.ret = 0 ∧
      (r.as.segments empty_as.num_segments).vbase ≤ 0x400123 ∧
      0x400123 + 0x2345 ≤ (r.as.segments empty_as.num_segments).vbase +
        (r.as.segments empty_as.num_segments).size * PAGE_SIZE ∧
      PAGE_SIZE ∣ (r.as.segments empty_as.num_segments).vbase ∧
      PAGE_SIZE ∣ (r.as.segments empty_as.num_segments).vbase +
        (r.as.segments empty_as.num_segments).size * PAGE_SIZE :=
  ⟨by decide, by decide, _, rfl, rfl,
    as_define_region_covers 3 pt_create_ok empty_as 0x400123 0x2345 5 0 0x2000 _
      (by decide) (by decide) rfl rfl⟩

/-- The value `flags & PF_W` is non-zero exactly when bit 1 of `flags` is set. -/
theorem land_PF_W_ne_zero (flags : Nat) : flags &&& PF_W ≠ 0 ↔ flags.testBit 1 = true := by
  have e : PF_W = 2 ^ 1 := rfl
  rw [e, Nat.and_two_pow]
  cases flags.testBit 1 <;> simp

/-- C9: a call of `as_define_region` that returns 0, entered with
`n = num_segments`, leaves slot `n` active with the aligned base and page
count, `writeable = flags & PF_W` (non-zero exactly when the `PF_W` bit of
`flags` is set), `p_flags = flags & PF_X`, `p_offset = offset`,
`p_filesz = filesz`, `p_memsz` the `sz` passed in, and the page table that
`pt_create` made for that descriptor; `pt_create` is called once, for slot
`n`; `num_segments` is `n + 1`; every other slot, the last slot
`AS_NUM_SEG - 1` among them, and `file` are as before. -/
theorem as_define_region_slot (AS_NUM_SEG : Nat) (pt_create : segment → Option pagetable)
    (as : addrspace) (vaddr sz flags offset filesz : Nat) (r : region_result)
    (h : as_define_region AS_NUM_SEG pt_create as vaddr sz flags offset filesz = some r)
    (h0 : r.ret = 0) :
    (r.as.segments as.num_segments).active = 1 ∧
    ((r.as.segments as.num_segments).vbase, (r.as.segments as.num_segments).size)
      = align_region vaddr sz ∧
    (r.as.segments as.num_segments).writeable = flags &&& PF_W ∧
    ((r.as.segments as.num_segments).writeable ≠ 0 ↔ flags.testBit 1 = true) ∧
    (r.as.segments as.num_segments).p_flags = flags &&& PF_X ∧
    (r.as.segments as.num_segments).p_offset = offset ∧
    (r.as.segments as.num_segments).p_filesz = filesz ∧
    (r.as.segments as.num_segments).p_memsz = sz ∧
    (∃ pt, (r.as.segments as.num_segments).pt = some pt ∧
      pt_create (region_segment (as.segments as.num_segments) vaddr sz flags offset filesz)
        = some pt) ∧
    r.events = [vm_event.pt_create as.num_segments] ∧
    r.as.num_segments = as.num_segments + 1 ∧
    (∀ j, j ≠ as.num_segments → r.as.segments j = as.segments j) ∧
    r.as.segments (AS_NUM_SEG - 1) = as.segments (AS_NUM_SEG - 1) ∧
    r.as.file = as.file := by
  obtain ⟨hn, _, pt, hpt, hr⟩ :=
    as_define_region_ok AS_NUM_SEG pt_create as vaddr sz flags offset filesz r h h0
  subst hr
  have hlast : AS_NUM_SEG - 1 ≠ as.num_segments := by omega
  refine ⟨by simp [region_segment], by simp [region_segment], by simp [region_segment], ?_,
    by simp [region_segment], by simp [region_segment], by simp [region_segment],
    by simp [region_segment], ⟨pt, by simp, hpt⟩, rfl, rfl, ?_, ?_, rfl⟩
  · simpa [region_segment] using land_PF_W_ne_zero flags
  · intro j hj
    simp [hj]
  · simp [hlast]

/-- A successful call on the empty address space with three slots, with the
stored fields evaluated. -/
theorem as_define_region_slot_witness :
    ∃ r, as_define_region 3 pt_create_ok empty_as 0x400123 0x2345 6 0x1000 0x2000 = some r ∧
      r.ret = 0 ∧
      (r.as.segments 0).active = 1 ∧
      (r.as.segments 0).vbase = 0x400000 ∧
      (r.as.segments 0).size = 3 ∧
      (r.as.segments 0).writeable = 2 ∧
      (r.as.segments 0).p_flags = 0 ∧
      (r.as.segments 0).p_memsz = 0x2345 ∧
      r.as.num_segments = 1 ∧
      r.as.segments 2 = empty_as.segments 2 := by
  have key := as_define_region_slot 3 pt_create_ok empty_as 0x400123 0x2345 6 0x1000 0x2000 _
    rfl rfl
  exact ⟨_, rfl, rfl, key.1, by decide, by decide, by decide, by decide, by decide,
    by decide, key.2.2.2.2.2.2.2.2.2.2.2.2.1⟩

/-! ## `as_define_stack` -/

/-- What `as_define_stack` establishes for every address space and every
behaviour of `pt_create`: it returns 0, stores `USERTOP` through the
stack-pointer output and leaves slot `AS_NUM_SEG - 1` active with
`vbase = USERTOP - 12 * PAGE_SIZE`, `size = 12`, `writeable = 1`,
`p_offset = p_filesz = p_memsz = p_flags = 0` and the page table that the one
call of `pt_create` returned, so that the lookup test of the slot holds
exactly on `[USERTOP - 12 * PAGE_SIZE, USERTOP)`; `num_segments`, `file` and
every other slot are as before. -/
theorem as_define_stack_spec (AS_NUM_SEG : Nat) (pt_create : segment → Option pagetable)
    (as : addrspace) :
    (as_define_stack AS_NUM_SEG pt_create as).ret = 0 ∧
    (as_define_stack AS_NUM_SEG pt_create as).stackptr = USERTOP ∧
    ((as_define_stack AS_NUM_SEG pt_create as).as.segments (AS_NUM_SEG - 1)).active = 1 ∧
    ((as_define_stack AS_NUM_SEG pt_create as).as.segments (AS_NUM_SEG - 1)).vbase
      = USERTOP - 12 * PAGE_SIZE ∧
    ((as_define_stack AS_NUM_SEG pt_create as).as.segments (AS_NUM_SEG - 1)).size = 12 ∧
    ((as_define_stack AS_NUM_SEG pt_create as).as.segments (AS_NUM_SEG - 1)).writeable = 1 ∧
    ((as_define_stack AS_NUM_SEG pt_create as).as.segments (AS_NUM_SEG - 1)).p_offset = 0 ∧
    ((as_define_stack AS_NUM_SEG pt_create as).as.segments (AS_NUM_SEG - 1)).p_filesz = 0 ∧
    ((as_define_stack AS_NUM_SEG pt_create as).as.segments (AS_NUM_SEG - 1)).p_memsz = 0 ∧
    ((as_define_stack AS_NUM_SEG pt_create as).as.segments (AS_NUM_SEG - 1)).p_flags = 0 ∧
    ((as_define_stack AS_NUM_SEG pt_create as).as.segments (AS_NUM_SEG - 1)).pt
      = pt_create (stack_segment (as.segments (AS_NUM_SEG - 1))) ∧
    (as_define_stack AS_NUM_SEG pt_create as).events
      = [vm_event.pt_create (AS_NUM_SEG - 1)] ∧
    ((as_define_stack AS_NUM_SEG pt_create as).as.segments (AS_NUM_SEG - 1)).vbase +
      ((as_define_stack AS_NUM_SEG pt_create as).as.segments (AS_NUM_SEG - 1)).size * PAGE_SIZE
      = USERTOP ∧
    (∀ v, segment_holds ((as_define_stack AS_NUM_SEG pt_create as).as.segments (AS_NUM_SEG - 1)) v
      = true ↔ USERTOP - 12 * PAGE_SIZE ≤ v ∧ v < USERTOP) ∧
    (as_define_stack AS_NUM_SEG pt_create as).as.num_segments = as.num_segments ∧
    (as_define_stack AS_NUM_SEG pt_create as).as.file = as.file ∧
    (∀ j, j ≠ AS_NUM_SEG - 1 →
      (as_define_stack AS_NUM_SEG pt_create as).as.segments j = as.segments j) := by
  refine ⟨rfl, rfl, ?_, ?_, ?_, ?_, ?_, ?_, ?_, ?_, ?_, rfl, ?_, ?_, rfl, rfl, ?_⟩
  · simp [as_define_stack, stack_segment]
  · simp [as_define_stack, stack_segment, DUMBVM_STACKPAGES]
  · simp [as_define_stack, stack_segment, DUMBVM_STACKPAGES]
  · simp [as_define_stack, stack_segment]
  · simp [as_define_stack, stack_segment]
  · simp [as_define_stack, stack_segment]
  · simp [as_define_stack, stack_segment]
  · simp [as_define_stack, stack_segment]
  · simp [as_define_stack]
  · simp only [as_define_stack, stack_segment, if_true]
    decide
  · intro v
    have e : (USERTOP - 12 * PAGE_SIZE + (12 * PAGE_SIZE) % WORD) % WORD = USERTOP := by decide
    have e2 : DUMBVM_STACKPAGES = 12 := rfl
    simp only [as_define_stack, stack_segment, segment_holds, if_true, Bool.and_eq_true,
      decide_eq_true_eq, true_and, e2, e]
  · intro j hj
    simp [as_define_stack, hj]

/-! ## Validation and lookup in terms of the slot tests -/

/-- A visited index on which the test succeeds makes the loop return a slot. -/
theorem first_slot_isSome (hit : Nat → Bool) (k i j : Nat) (h1 : i ≤ j) (h2 : j < i + k)
    (h3 : hit j = true) : ∃ l, first_slot hit k i = some l := by
  cases h : first_slot hit k i with
  | some l => exact ⟨l, rfl⟩
  | none =>
    have := (first_slot_eq_none hit k i).mp h j h1 h2
    rw [h3] at this
    exact absurd this (by simp)

/-- The two validation functions compute the same value. -/
theorem as_valid_write_addr_eq_read (AS_NUM_SEG : Nat) (as : addrspace) (a : Nat) :
    as_valid_write_addr AS_NUM_SEG as a = as_valid_read_addr AS_NUM_SEG as a := rfl

/-- The read validation returns 1 exactly when the address is below `USERTOP`
and some slot passes the validation test. -/
theorem as_valid_read_addr_eq_one (AS_NUM_SEG : Nat) (as : addrspace) (a : Nat) :
    as_valid_read_addr AS_NUM_SEG as a = 1 ↔
      a < USERTOP ∧ ∃ i, i < AS_NUM_SEG ∧ segment_valid (as.segments i) a = true := by
  unfold as_valid_read_addr
  by_cases ha : a < USERTOP
  · rw [if_neg (not_not.mpr ha)]
    cases h : first_slot (fun i => segment_valid (as.segments i) a) AS_NUM_SEG 0 with
    | some l =>
      have := (first_slot_eq_some _ _ _ _).mp h
      simp only [true_iff]
      exact ⟨ha, l, by omega, this.2.2.1⟩
    | none =>
      have hn := (first_slot_eq_none _ _ _).mp h
      simp only [zero_ne_one, false_iff, not_and, not_exists]
      intro _ i hi hv
      have := hn i (Nat.zero_le _) (by omega)
      simp only at this
      rw [hv] at this
      exact absurd this (by simp)
  · rw [if_pos ha]
    simp only [zero_ne_one, false_iff, not_and]
    intro h
    exact absurd h ha

/-- The read validation returns 0 or 1. -/
theorem as_valid_read_addr_zero_or_one (AS_NUM_SEG : Nat) (as : addrspace) (a : Nat) :
    as_valid_read_addr AS_NUM_SEG as a = 0 ∨ as_valid_read_addr AS_NUM_SEG as a = 1 := by
  unfold as_valid_read_addr
  split
  · exact Or.inl rfl
  · split
    · exact Or.inr rfl
    · exact Or.inl rfl

/-- Where the scaled bound of the validation does not wrap, a region that
`as_define_region` has just defined below `USERTOP` serves every byte of
`[vaddr, vaddr + sz)` that no earlier slot holds: validation accepts the
page-masked address, the lookup returns the new slot, and a read fault pages
in on that slot and returns 0. -/
theorem as_define_region_serves (AS_NUM_SEG curspl : Nat)
    (pt_create : segment → Option pagetable) (as : addrspace)
    (vaddr sz flags offset filesz a : Nat) (r : region_result)
    (h : as_define_region AS_NUM_SEG pt_create as vaddr sz flags offset filesz = some r)
    (h0 : r.ret = 0) (htop : vaddr + sz ≤ USERTOP)
    (hscale : (r.as.segments as.num_segments).vbase +
      SIZEOF_VADDR_T * (PAGE_SIZE * (r.as.segments as.num_segments).size) < WORD)
    (hfree : ∀ i, i < as.num_segments →
      segment_holds (as.segments i) (a &&& PAGE_FRAME) = false)
    (ha1 : vaddr ≤ a) (ha2 : a < vaddr + sz) :
    as_valid_read_addr AS_NUM_SEG r.as (a &&& PAGE_FRAME) = 1 ∧
    as_get_segment AS_NUM_SEG r.as (a &&& PAGE_FRAME) = some as.num_segments ∧
    vm_fault AS_NUM_SEG curspl (some r.as) VM_FAULT_READ a
      = { ret := some 0, spl := curspl,
          events := [vm_event.pt_page_in (a &&& PAGE_FRAME) as.num_segments] } := by
  obtain ⟨hn, _, pt, _, hr⟩ :=
    as_define_region_ok AS_NUM_SEG pt_create as vaddr sz flags offset filesz r h h0
  have hend : (vaddr + sz + PAGE_SIZE - 1) / PAGE_SIZE * PAGE_SIZE < WORD := by
    simp only [USERTOP, PAGE_SIZE, WORD] at htop ⊢
    omega
  have haw : a < WORD := by
    simp only [USERTOP, WORD] at htop ⊢
    omega
  have hslot : r.as.segments as.num_segments =
      { region_segment (as.segments as.num_segments) vaddr sz flags offset filesz
        with pt := some pt } := by
    rw [hr]
    simp only [if_true]
  have hother : ∀ j, j ≠ as.num_segments → r.as.segments j = as.segments j := by
    intro j hj
    rw [hr]
    simp only [if_neg hj]
  rw [hslot] at hscale
  simp only [region_segment, align_region_no_overflow vaddr sz hend] at hscale
  have hvalid : segment_valid (r.as.segments as.num_segments) (a &&& PAGE_FRAME) = true := by
    rw [hslot, land_PAGE_FRAME a haw]
    simp only [segment_valid, region_segment, align_region_no_overflow vaddr sz hend,
      Bool.and_eq_true, decide_eq_true_eq]
    simp only [USERTOP, PAGE_SIZE, WORD, SIZEOF_VADDR_T] at htop hscale ⊢
    refine ⟨⟨by omega, by omega⟩, ?_⟩
    omega
  have hholds : segment_holds (r.as.segments as.num_segments) (a &&& PAGE_FRAME) = true := by
    rw [hslot, land_PAGE_FRAME a haw]
    simp only [segment_holds, region_segment, align_region_no_overflow vaddr sz hend,
      Bool.and_eq_true, decide_eq_true_eq]
    simp only [USERTOP, PAGE_SIZE, WORD, SIZEOF_VADDR_T] at htop hscale ⊢
    refine ⟨⟨trivial, by omega⟩, ?_⟩
    omega
  have hlt : a &&& PAGE_FRAME < USERTOP := by
    rw [land_PAGE_FRAME a haw]
    simp only [USERTOP, PAGE_SIZE] at htop ⊢
    omega
  have h1 : as_valid_read_addr AS_NUM_SEG r.as (a &&& PAGE_FRAME) = 1 :=
    (as_valid_read_addr_eq_one _ _ _).mpr ⟨hlt, as.num_segments, by omega, hvalid⟩
  have h2 : as_get_segment AS_NUM_SEG r.as (a &&& PAGE_FRAME) = some as.num_segments := by
    unfold as_get_segment
    rw [first_slot_eq_some]
    refine ⟨Nat.zero_le _, by omega, hholds, ?_⟩
    intro l _ hl
    rw [hother l (by omega)]
    exact hfree l hl
  refine ⟨h1, h2, ?_⟩
  simp only [vm_fault, h1, vm_fault_page_in, h2]
  rfl

/-- The hypotheses of `as_define_region_serves` hold for the last byte of the
code region of the scenario. -/
theorem as_define_region_serves_example :
    ∃ r, as_define_region 3 pt_create_ok empty_as 0x1000 0x2000 5 0 0x2000 = some r ∧
      as_valid_read_addr 3 r.as (0x2fff &&& PAGE_FRAME) = 1 ∧
      as_get_segment 3 r.as (0x2fff &&& PAGE_FRAME) = some 0 ∧
      (vm_fault 3 0 (some r.as) VM_FAULT_READ 0x2fff).ret = some 0 := by
  have key := as_define_region_serves 3 0 pt_create_ok empty_as 0x1000 0x2000 5 0 0x2000 0x2fff _
    rfl rfl (by decide) (by decide) (by decide) (by decide) (by decide)
  exact ⟨_, rfl, key.1, key.2.1, by rw [key.2.2]⟩

/-! ## Addresses at and above `USERTOP` -/

/-- Page-masking keeps a 32-bit address at or above `USERTOP`, which is
page-aligned. -/
theorem usertop_le_land_PAGE_FRAME (a : Nat) (h : USERTOP ≤ a) (ha : a < WORD) :
    USERTOP ≤ a &&& PAGE_FRAME := by
  rw [land_PAGE_FRAME a ha]
  simp only [USERTOP, PAGE_SIZE, WORD] at h ha ⊢
  omega

/-- C7: for every address space and every address `a ≥ USERTOP`,
`as_valid_read_addr` and `as_valid_write_addr` return 0; and when `a` is a
32-bit address its page-masked value is still `≥ USERTOP`, so that with the
address space bound `vm_fault` ends both a read fault and a write fault at `a`
by `thread_exit` and `return EFAULT`, without page-in. -/
theorem usertop_rejected (AS_NUM_SEG curspl : Nat) (as : addrspace) (a : Nat)
    (h : USERTOP ≤ a) :
    as_valid_read_addr AS_NUM_SEG as a = 0 ∧
    as_valid_write_addr AS_NUM_SEG as a = 0 ∧
    (a < WORD →
      USERTOP ≤ a &&& PAGE_FRAME ∧
      vm_fault AS_NUM_SEG curspl (some as) VM_FAULT_READ a
        = { ret := some EFAULT, spl := SPL_HIGH, events := [vm_event.thread_exit] } ∧
      vm_fault AS_NUM_SEG curspl (some as) VM_FAULT_WRITE a
        = { ret := some EFAULT, spl := SPL_HIGH, events := [vm_event.thread_exit] }) := by
  have hr : ∀ b, USERTOP ≤ b → as_valid_read_addr AS_NUM_SEG as b = 0 := by
    intro b hb
    unfold as_valid_read_addr
    rw [if_pos (not_lt.mpr hb)]
  have hw : ∀ b, USERTOP ≤ b → as_valid_write_addr AS_NUM_SEG as b = 0 := by
    intro b hb
    unfold as_valid_write_addr
    rw [if_pos (not_lt.mpr hb)]
  refine ⟨hr a h, hw a h, fun ha => ?_⟩
  have hm := usertop_le_land_PAGE_FRAME a h ha
  refine ⟨hm, ?_, ?_⟩
  · simp only [vm_fault, hr _ hm, if_true]
    rfl
  · simp only [vm_fault, hw _ hm, if_true]
    rfl

/-- The boundary case: the address `USERTOP` itself, with the stack segment
ending exactly at `USERTOP`. -/
theorem usertop_rejected_witness :
    USERTOP ≤ USERTOP ∧
    ((as_define_stack 3 pt_create_ok empty_as).as.segments 2).vbase + 12 * PAGE_SIZE = USERTOP ∧
    as_valid_read_addr 3 (as_define_stack 3 pt_create_ok empty_as).as USERTOP = 0 ∧
    as_valid_write_addr 3 (as_define_stack 3 pt_create_ok empty_as).as USERTOP = 0 ∧
    (vm_fault 3 0 (some (as_define_stack 3 pt_create_ok empty_as).as) VM_FAULT_READ USERTOP).ret
      = some EFAULT ∧
    (vm_fault 3 0 (some (as_define_stack 3 pt_create_ok empty_as).as) VM_FAULT_WRITE USERTOP).ret
      = some EFAULT := by
  have key := usertop_rejected 3 0 (as_define_stack 3 pt_create_ok empty_as).as USERTOP
    (le_refl _)
  have key2 := key.2.2 (by decide)
  refine ⟨le_refl _, by decide, key.1, key.2.1, ?_, ?_⟩
  · rw [key2.2.1]
  · rw [key2.2.2]

/-! ## The outcome of `as_define_region` -/

/-- C8, as the code has it: `as_define_region` returns 0 exactly when
`num_segments < AS_NUM_SEG - 1` on entry, the slot at `num_segments` is
inactive and `pt_create` delivers a page table; with
`num_segments < AS_NUM_SEG - 1` and one of the other two conditions failing
an assertion aborts and nothing is returned; with
`num_segments ≥ AS_NUM_SEG - 1` the call returns `EUNIMP`, which is non-zero,
and leaves the whole address space as it was (`num_segments`, every slot, the
last one included), calling `kprintf` and never `pt_create`. -/
theorem as_define_region_outcome (AS_NUM_SEG : Nat) (pt_create : segment → Option pagetable)
    (as : addrspace) (vaddr sz flags offset filesz : Nat) :
    ((∃ r, as_define_region AS_NUM_SEG pt_create as vaddr sz flags offset filesz = some r ∧
        r.ret = 0) ↔
      (as.num_segments < AS_NUM_SEG - 1 ∧ (as.segments as.num_segments).active = 0 ∧
        pt_create (region_segment (as.segments as.num_segments) vaddr sz flags offset filesz)
          ≠ none)) ∧
    (as.num_segments < AS_NUM_SEG - 1 →
      ((as.segments as.num_segments).active ≠ 0 ∨
        pt_create (region_segment (as.segments as.num_segments) vaddr sz flags offset filesz)
          = none) →
      as_define_region AS_NUM_SEG pt_create as vaddr sz flags offset filesz = none) ∧
    (¬ as.num_segments < AS_NUM_SEG - 1 →
      as_define_region AS_NUM_SEG pt_create as vaddr sz flags offset filesz
        = some { ret := EUNIMP, as := as, events := [vm_event.kprintf] }) ∧
    EUNIMP ≠ 0 := by
  refine ⟨⟨?_, ?_⟩, ?_, ?_, by decide⟩
  · rintro ⟨r, h, h0⟩
    obtain ⟨hn, ha, pt, hpt, _⟩ :=
      as_define_region_ok AS_NUM_SEG pt_create as vaddr sz flags offset filesz r h h0
    exact ⟨hn, ha, by simp [hpt]⟩
  · rintro ⟨hn, ha, hpt⟩
    obtain ⟨pt, hpt⟩ := Option.ne_none_iff_exists'.mp hpt
    unfold as_define_region
    rw [if_pos hn, if_neg (by simpa using ha)]
    simp only [hpt]
    exact ⟨_, rfl, rfl⟩
  · intro hn hfail
    unfold as_define_region
    rw [if_pos hn]
    by_cases ha : (as.segments as.num_segments).active ≠ 0
    · rw [if_pos ha]
    · rw [if_neg ha]
      rcases hfail with h1 | h1
      · exact absurd h1 ha
      · simp only [h1]
  · intro hn
    unfold as_define_region
    rw [if_neg hn]

/-- With both region slots of a three-slot address space taken, the call
returns `EUNIMP` and the address space is the one passed in. -/
theorem as_define_region_outcome_witness :
    ¬ full_as.num_segments < 3 - 1 ∧
    as_define_region 3 pt_create_ok full_as 0x500000 0x1000 6 0 0
      = some { ret := EUNIMP, as := full_as, events := [vm_event.kprintf] } :=
  ⟨by decide,
    (as_define_region_outcome 3 pt_create_ok full_as 0x500000 0x1000 6 0 0).2.2.1 (by decide)⟩

/-- C8 as stated fails: on the empty address space `num_segments = 0 < 3 - 1`,
yet when `pt_create` returns `NULL` the call does not return 0 (its assertion
`pt != NULL` aborts). -/
theorem as_define_region_iff_counterexample :
    ¬ ((∃ r, as_define_region 3 pt_create_null empty_as 0x400000 0x1000 6 0 0x1000 = some r ∧
          r.ret = 0) ↔
        empty_as.num_segments < 3 - 1) := by
  intro h
  obtain ⟨r, hr, _⟩ := h.mpr (by decide)
  exact absurd hr (by simp [as_define_region, pt_create_null, empty_as, zero_segment])

/-! ## Evaluations of the validation code -/

/-- C2 fails on the code: defining the region `[0x40000000, 0x70000000)` on
the empty address space succeeds and the lookup finds the new slot 0 for the
address `0x40000000`, yet `as_valid_read_addr` returns 0 there (its scaled
upper bound `vbase + 4 * size * PAGE_SIZE` wraps to `0x00000000`), so the read
fault ends in `thread_exit` and `EFAULT` instead of page-in. -/
theorem large_region_read_fault_rejected :
    (as_define_region 3 pt_create_ok empty_as 0x40000000 0x30000000 6 0 0).map
      (fun r => r.ret) = some 0 ∧
    0x40000000 + 0x30000000 ≤ USERTOP ∧
    (∀ i, i < 3 → (empty_as.segments i).active = 0) ∧
    ((large_region_as.segments 0).vbase = 0x40000000 ∧
      (large_region_as.segments 0).size = 0x30000) ∧
    as_get_segment 3 large_region_as (0x40000000 &&& PAGE_FRAME) = some 0 ∧
    as_valid_read_addr 3 large_region_as (0x40000000 &&& PAGE_FRAME) = 0 ∧
    vm_fault 3 0 (some large_region_as) VM_FAULT_READ 0x40000000
      = { ret := some EFAULT, spl := SPL_HIGH, events := [vm_event.thread_exit] } := by
  decide

/-- C3 fails on the code: in the scenario address space the address `0x1000`
lies in the code segment (slot 0, `writeable = 0`) and in no other slot, and
`as_valid_write_addr` returns 1 for it, as `as_valid_read_addr` does. -/
theorem write_validation_ignores_writeable :
    (scenario_as.segments 0).active = 1 ∧
    (scenario_as.segments 0).writeable = 0 ∧
    (∀ i, i < 3 →
      ((scenario_as.segments i).active ≠ 0 ∧ (scenario_as.segments i).vbase ≤ 0x1000 ∧
        0x1000 < (scenario_as.segments i).vbase + (scenario_as.segments i).size * PAGE_SIZE) →
      i = 0) ∧
    (scenario_as.segments 0).vbase ≤ 0x1000 ∧
    0x1000 < (scenario_as.segments 0).vbase + (scenario_as.segments 0).size * PAGE_SIZE ∧
    as_valid_read_addr 3 scenario_as 0x1000 = 1 ∧
    as_valid_write_addr 3 scenario_as 0x1000 = 1 := by
  decide

/-- C4 fails on the code: in the scenario address space a write fault at
`0x1000`, inside the code segment alone (`writeable = 0`), returns 0 after
page-in on slot 0 and makes no call of `thread_exit`. -/
theorem write_fault_on_readonly_segment :
    0x1000 < USERTOP ∧
    (scenario_as.segments 0).writeable = 0 ∧
    (∀ i, i < 3 → (segment_holds (scenario_as.segments i) 0x1000 = true ↔ i = 0)) ∧
    vm_fault 3 0 (some scenario_as) VM_FAULT_WRITE 0x1000
      = { ret := some 0, spl := 0, events := [vm_event.pt_page_in 0x1000 0] } := by
  decide

/-- C5 fails on the code: in the scenario address space the page-aligned
address `0x3000`, the first byte after the code segment, is accepted by
`as_valid_read_addr` and by `as_valid_write_addr`, `as_get_segment` returns
`NULL` for it, and `vm_fault` stops at `assert(s != NULL)` for a read fault
and for a write fault. -/
theorem validation_without_segment :
    0x3000 &&& PAGE_FRAME = 0x3000 ∧
    as_valid_read_addr 3 scenario_as 0x3000 = 1 ∧
    as_valid_write_addr 3 scenario_as 0x3000 = 1 ∧
    as_get_segment 3 scenario_as 0x3000 = none ∧
    (vm_fault 3 0 (some scenario_as) VM_FAULT_READ 0x3000).ret = none ∧
    (vm_fault 3 0 (some scenario_as) VM_FAULT_WRITE 0x3000).ret = none := by
  decide

/-- C6 fails on the code: in the scenario address space `0x8fff` is below
`USERTOP` and at or beyond `vbase + size * PAGE_SIZE` of every active segment
that starts at or below it, so no active segment contains it, and
`as_valid_read_addr` returns 1: the code segment `[0x1000, 0x3000)` is
accepted up to `0x1000 + 4 * 2 * PAGE_SIZE = 0x9000`. -/
theorem read_validation_range_scaled :
    0x8fff < USERTOP ∧
    (∀ i, i < 3 → ¬ ((scenario_as.segments i).active ≠ 0 ∧
      (scenario_as.segments i).vbase ≤ 0x8fff ∧
      0x8fff < (scenario_as.segments i).vbase + (scenario_as.segments i).size * PAGE_SIZE)) ∧
    as_get_segment 3 scenario_as 0x8fff = none ∧
    as_valid_read_addr 3 scenario_as 0x8fff = 1 ∧
    as_valid_read_addr 3 scenario_as 0x9000 = 0 := by
  decide

/-! ## Segment lookup -/

/-- C11: `as_get_segment` returns `NULL` exactly when no slot below
`AS_NUM_SEG` is active (`active == 1`, as the function tests it) with
`vbase ≤ v < vbase + size * PAGE_SIZE` (the bound in 32-bit arithmetic);
otherwise it returns the lowest index of such a slot; and when the ranges of
the active slots are pairwise disjoint that slot is the only one containing
`v`. -/
theorem as_get_segment_spec (AS_NUM_SEG : Nat) (as : addrspace) (v : Nat) :
    (as_get_segment AS_NUM_SEG as v = none ↔
      ∀ i, i < AS_NUM_SEG →
        ¬ ((as.segments i).active = 1 ∧ (as.segments i).vbase ≤ v ∧
          v < ((as.segments i).vbase + ((as.segments i).size * PAGE_SIZE) % WORD) % WORD)) ∧
    (∀ j, as_get_segment AS_NUM_SEG as v = some j ↔
      (j < AS_NUM_SEG ∧
        ((as.segments j).active = 1 ∧ (as.segments j).vbase ≤ v ∧
          v < ((as.segments j).vbase + ((as.segments j).size * PAGE_SIZE) % WORD) % WORD) ∧
        ∀ l, l < j →
          ¬ ((as.segments l).active = 1 ∧ (as.segments l).vbase ≤ v ∧
            v < ((as.segments l).vbase + ((as.segments l).size * PAGE_SIZE) % WORD) % WORD))) ∧
    ((∃ i, i < AS_NUM_SEG ∧ (as.segments i).active = 1 ∧ (as.segments i).vbase ≤ v ∧
        v < ((as.segments i).vbase + ((as.segments i).size * PAGE_SIZE) % WORD) % WORD) →
      ∃ j, as_get_segment AS_NUM_SEG as v = some j) ∧
    ((∀ i k w, i < AS_NUM_SEG → k < AS_NUM_SEG → i ≠ k →
        ¬ (((as.segments i).active = 1 ∧ (as.segments i).vbase ≤ w ∧
            w < ((as.segments i).vbase + ((as.segments i).size * PAGE_SIZE) % WORD) % WORD) ∧
          ((as.segments k).active = 1 ∧ (as.segments k).vbase ≤ w ∧
            w < ((as.segments k).vbase + ((as.segments k).size * PAGE_SIZE) % WORD) % WORD))) →
      ∀ j, as_get_segment AS_NUM_SEG as v = some j →
        ∀ i, i < AS_NUM_SEG →
          ((as.segments i).active = 1 ∧ (as.segments i).vbase ≤ v ∧
            v < ((as.segments i).vbase + ((as.segments i).size * PAGE_SIZE) % WORD) % WORD) →
          i = j) := by
  have hh : ∀ i, segment_holds (as.segments i) v = true ↔
      ((as.segments i).active = 1 ∧ (as.segments i).vbase ≤ v ∧
        v < ((as.segments i).vbase + ((as.segments i).size * PAGE_SIZE) % WORD) % WORD) := by
    intro i
    simp only [segment_holds, Bool.and_eq_true, decide_eq_true_eq, and_assoc]
  have hf : ∀ i, segment_holds (as.segments i) v = false ↔
      ¬ ((as.segments i).active = 1 ∧ (as.segments i).vbase ≤ v ∧
        v < ((as.segments i).vbase + ((as.segments i).size * PAGE_SIZE) % WORD) % WORD) := by
    intro i
    rw [← hh i]
    simp
  have hsome : ∀ j, as_get_segment AS_NUM_SEG as v = some j ↔
      (j < AS_NUM_SEG ∧
        ((as.segments j).active = 1 ∧ (as.segments j).vbase ≤ v ∧
          v < ((as.segments j).vbase + ((as.segments j).size * PAGE_SIZE) % WORD) % WORD) ∧
        ∀ l, l < j →
          ¬ ((as.segments l).active = 1 ∧ (as.segments l).vbase ≤ v ∧
            v < ((as.segments l).vbase + ((as.segments l).size * PAGE_SIZE) % WORD) % WORD)) := by
    intro j
    unfold as_get_segment
    rw [first_slot_eq_some]
    constructor
    · rintro ⟨_, h2, h3, h4⟩
      exact ⟨by omega, (hh j).mp h3, fun l hl => (hf l).mp (h4 l (Nat.zero_le _) hl)⟩
    · rintro ⟨h1, h2, h3⟩
      exact ⟨Nat.zero_le _, by omega, (hh j).mpr h2, fun l _ hl => (hf l).mpr (h3 l hl)⟩
  refine ⟨?_, hsome, ?_, ?_⟩
  · unfold as_get_segment
    rw [first_slot_eq_none]
    constructor
    · intro h i hi
      exact (hf i).mp (h i (Nat.zero_le _) (by omega))
    · intro h i _ hi
      exact (hf i).mpr (h i (by omega))
  · rintro ⟨i, hi, hP⟩
    unfold as_get_segment
    exact first_slot_isSome _ _ _ i (Nat.zero_le _) (by omega) ((hh i).mpr hP)
  · intro hdisj j hj i hi hP
    by_contra hne
    exact hdisj i j v hi ((hsome j).mp hj).1 hne ⟨hP, ((hsome j).mp hj).2.1⟩

/-- With the code segment and the stack of the scenario the ranges are
disjoint and the lookup of `0x2000` finds slot 0 alone. -/
theorem as_get_segment_spec_witness :
    (∀ i k w, i < 3 → k < 3 → i ≠ k →
        ¬ (((scenario_as.segments i).active = 1 ∧ (scenario_as.segments i).vbase ≤ w ∧
            w < ((scenario_as.segments i).vbase +
              ((scenario_as.segments i).size * PAGE_SIZE) % WORD) % WORD) ∧
          ((scenario_as.segments k).active = 1 ∧ (scenario_as.segments k).vbase ≤ w ∧
            w < ((scenario_as.segments k).vbase +
              ((scenario_as.segments k).size * PAGE_SIZE) % WORD) % WORD))) ∧
    as_get_segment 3 scenario_as 0x2000 = some 0 ∧
    ∀ i, i < 3 →
      ((scenario_as.segments i).active = 1 ∧ (scenario_as.segments i).vbase ≤ 0x2000 ∧
        0x2000 < ((scenario_as.segments i).vbase +
          ((scenario_as.segments i).size * PAGE_SIZE) % WORD) % WORD) →
      i = 0 := by
  have hd : ∀ i k w, i < 3 → k < 3 → i ≠ k →
      ¬ (((scenario_as.segments i).active = 1 ∧ (scenario_as.segments i).vbase ≤ w ∧
          w < ((scenario_as.segments i).vbase +
            ((scenario_as.segments i).size * PAGE_SIZE) % WORD) % WORD) ∧
        ((scenario_as.segments k).active = 1 ∧ (scenario_as.segments k).vbase ≤ w ∧
          w < ((scenario_as.segments k).vbase +
            ((scenario_as.segments k).size * PAGE_SIZE) % WORD) % WORD)) := by
    have e0 : scenario_as.segments 0 =
        { active := 1, vbase := 0x1000, size := 2, writeable := 0,
          pt := some { size := 0, page_details := [] },
          p_offset := 0, p_filesz := 0x2000, p_memsz := 0x2000, p_flags := 1 } := by decide
    have e1 : (scenario_as.segments 1).active = 0 := by decide
    have e2 : (scenario_as.segments 2).active = 1 ∧
        (scenario_as.segments 2).vbase = 0x7fff4000 ∧ (scenario_as.segments 2).size = 12 := by
      decide
    intro i k w hi hk hne
    have hi3 : i = 0 ∨ i = 1 ∨ i = 2 := by omega
    have hk3 : k = 0 ∨ k = 1 ∨ k = 2 := by omega
    rcases hi3 with rfl | rfl | rfl <;> rcases hk3 with rfl | rfl | rfl <;>
      first
        | exact absurd rfl hne
        | (simp only [e0, e1, e2.1, e2.2.1, e2.2.2, PAGE_SIZE, WORD]; omega)
  exact ⟨hd, by decide,
    (as_get_segment_spec 3 scenario_as 0x2000).2.2.2 hd 0 (by decide)⟩

/-- For slots whose `active` field is 0 or 1 and whose end
`vbase + size * PAGE_SIZE` fits in 32 bits, the lookup fails exactly when no
slot with a non-zero `active` contains `v` in plain arithmetic. -/
theorem as_get_segment_none_plain (AS_NUM_SEG : Nat) (as : addrspace) (v : Nat)
    (hwf : ∀ i, i < AS_NUM_SEG → (as.segments i).active ≤ 1 ∧
      (as.segments i).vbase + (as.segments i).size * PAGE_SIZE < WORD) :
    as_get_segment AS_NUM_SEG as v = none ↔
      ∀ i, i < AS_NUM_SEG →
        ¬ ((as.segments i).active ≠ 0 ∧ (as.segments i).vbase ≤ v ∧
          v < (as.segments i).vbase + (as.segments i).size * PAGE_SIZE) := by
  unfold as_get_segment
  rw [first_slot_eq_none]
  have key : ∀ i, i < AS_NUM_SEG → (segment_holds (as.segments i) v = false ↔
      ¬ ((as.segments i).active ≠ 0 ∧ (as.segments i).vbase ≤ v ∧
        v < (as.segments i).vbase + (as.segments i).size * PAGE_SIZE)) := by
    intro i hi
    obtain ⟨h1, h2⟩ := hwf i hi
    have e1 : ((as.segments i).size * PAGE_SIZE) % WORD = (as.segments i).size * PAGE_SIZE :=
      Nat.mod_eq_of_lt (by omega)
    have e2 : ((as.segments i).vbase + (as.segments i).size * PAGE_SIZE) % WORD
        = (as.segments i).vbase + (as.segments i).size * PAGE_SIZE := Nat.mod_eq_of_lt h2
    have e3 : (as.segments i).active = 1 ↔ (as.segments i).active ≠ 0 := by omega
    rw [← Bool.not_eq_true]
    simp only [segment_holds, Bool.and_eq_true, decide_eq_true_eq, e1, e2, e3, and_assoc]
  constructor
  · intro h i hi
    exact (key i hi).mp (h i (Nat.zero_le _) (by omega))
  · intro h i _ hi
    exact (key i (by omega)).mpr (h i (by omega))

/-! ## The fault dispatcher: classification -/

/-- The step-by-step rendering of `vm_fault` agrees with `vm_fault`: same
return value, the final interrupt priority is the one its steps install, and
the collaborator calls are those among its steps. -/
theorem vm_fault_steps_agree (AS_NUM_SEG curspl : Nat) (t_vmspace : Option addrspace)
    (faulttype faultaddress : Nat) :
    vm_fault AS_NUM_SEG curspl t_vmspace faulttype faultaddress =
      { ret := (vm_fault_steps AS_NUM_SEG curspl t_vmspace faulttype faultaddress).ret
        spl := spl_after curspl
          (vm_fault_steps AS_NUM_SEG curspl t_vmspace faulttype faultaddress).steps
        events := calls_of
          (vm_fault_steps AS_NUM_SEG curspl t_vmspace faulttype faultaddress).steps } := by
  have hp : ∀ as fa, vm_fault_page_in AS_NUM_SEG curspl as fa =
      { ret := (vm_fault_page_in_steps AS_NUM_SEG curspl as fa).ret
        spl := spl_after curspl (vm_fault_page_in_steps AS_NUM_SEG curspl as fa).steps
        events := calls_of (vm_fault_page_in_steps AS_NUM_SEG curspl as fa).steps } := by
    intro as fa
    unfold vm_fault_page_in vm_fault_page_in_steps
    cases as_get_segment AS_NUM_SEG as fa <;> rfl
  unfold vm_fault vm_fault_steps
  cases t_vmspace with
  | none => rfl
  | some as =>
    simp only
    split
    · rfl
    · split
      · split
        · rfl
        · exact hp _ _
      · split
        · split
          · rfl
          · exact hp _ _
        · rfl

/-- C12, as the code has it: a `VM_FAULT_READONLY` fault never returns 0 and
never pages in; with an address space bound it calls `thread_exit` and returns
`EFAULT`; with none bound it returns `EFAULT` from the guard `as == NULL`
without calling `thread_exit`. -/
theorem vm_fault_readonly (AS_NUM_SEG curspl : Nat) (t_vmspace : Option addrspace)
    (faultaddress : Nat) :
    (vm_fault AS_NUM_SEG curspl t_vmspace VM_FAULT_READONLY faultaddress).ret = some EFAULT ∧
    (vm_fault AS_NUM_SEG curspl t_vmspace VM_FAULT_READONLY faultaddress).ret ≠ some 0 ∧
    (∀ a s, vm_event.pt_page_in a s ∉
      (vm_fault AS_NUM_SEG curspl t_vmspace VM_FAULT_READONLY faultaddress).events) ∧
    (∀ as, t_vmspace = some as →
      (vm_fault AS_NUM_SEG curspl t_vmspace VM_FAULT_READONLY faultaddress).events
        = [vm_event.thread_exit]) ∧
    (t_vmspace = none →
      (vm_fault AS_NUM_SEG curspl t_vmspace VM_FAULT_READONLY faultaddress).events = []) := by
  cases t_vmspace with
  | none =>
    refine ⟨rfl, (show some EFAULT ≠ some 0 by decide), ?_, ?_, fun _ => rfl⟩
    · intro a s h
      simp [vm_fault] at h
    · intro as h
      exact absurd h (by simp)
  | some as =>
    have e : vm_fault AS_NUM_SEG curspl (some as) VM_FAULT_READONLY faultaddress
        = { ret := some EFAULT, spl := SPL_HIGH, events := [vm_event.thread_exit] } := by
      simp only [vm_fault, if_true]
    rw [e]
    refine ⟨rfl, by decide, ?_, fun _ _ => rfl, ?_⟩
    · intro a s h
      simp at h
    · intro h
      exact absurd h (by simp)

/-- The two cases of `vm_fault_readonly`, on the scenario address space and
with no address space bound. -/
theorem vm_fault_readonly_witness :
    (vm_fault 3 0 (some scenario_as) VM_FAULT_READONLY 0x1000).events = [vm_event.thread_exit] ∧
    (vm_fault 3 0 none VM_FAULT_READONLY 0x1000).events = [] :=
  ⟨(vm_fault_readonly 3 0 (some scenario_as) 0x1000).2.2.2.1 scenario_as rfl,
    (vm_fault_readonly 3 0 none 0x1000).2.2.2.2 rfl⟩

/-- C12 as stated fails: with no address space bound to the current thread a
`VM_FAULT_READONLY` fault returns without a call of `thread_exit`. -/
theorem vm_fault_readonly_unbound_counterexample :
    ¬ (vm_event.thread_exit ∈ (vm_fault 3 0 none VM_FAULT_READONLY 0x1000).events ∧
      (vm_fault 3 0 none VM_FAULT_READONLY 0x1000).ret ≠ some 0) := by
  decide

/-- C13: with an address space bound and a fault type other than
`VM_FAULT_READONLY`, `VM_FAULT_WRITE` and `VM_FAULT_READ`, `vm_fault` returns
`EINVAL` (non-zero) with the interrupt priority back at its value on entry
and without any collaborator call (no `thread_exit`, no `pt_page_in`, nothing
that could touch the address space); its steps are `splhigh` and
`splx(spl)`. -/
theorem vm_fault_other_type (AS_NUM_SEG curspl : Nat) (as : addrspace)
    (faulttype faultaddress : Nat)
    (h1 : faulttype ≠ VM_FAULT_READONLY) (h2 : faulttype ≠ VM_FAULT_WRITE)
    (h3 : faulttype ≠ VM_FAULT_READ) :
    vm_fault AS_NUM_SEG curspl (some as) faulttype faultaddress
      = { ret := some EINVAL, spl := curspl, events := [] } ∧
    EINVAL ≠ 0 ∧
    vm_fault_steps AS_NUM_SEG curspl (some as) faulttype faultaddress
      = { ret := some EINVAL, steps := [vm_step.splhigh, vm_step.splx curspl] } := by
  refine ⟨?_, by decide, ?_⟩
  · simp only [vm_fault, if_neg h1, if_neg h2, if_neg h3]
  · simp only [vm_fault_steps, if_neg h1, if_neg h2, if_neg h3]

/-- The fault type 3 on the scenario address space, entered at priority 0. -/
theorem vm_fault_other_type_witness :
    (3 : Nat) ≠ VM_FAULT_READONLY ∧ (3 : Nat) ≠ VM_FAULT_WRITE ∧ (3 : Nat) ≠ VM_FAULT_READ ∧
    vm_fault 3 0 (some scenario_as) 3 0x1000
      = { ret := some EINVAL, spl := 0, events := [] } :=
  ⟨by decide, by decide, by decide,
    (vm_fault_other_type 3 0 scenario_as 3 0x1000 (by decide) (by decide) (by decide)).1⟩

/-- C18: when `vm_fault` returns 0 an address space was bound, the fault type
was `VM_FAULT_READ` or `VM_FAULT_WRITE`, the validity function of that type
accepted the page-masked address, `as_get_segment` returned a slot for it,
and the steps were `splhigh`, then `splx` back to the priority on entry, then
one `pt_page_in` on the masked address and that slot; `thread_exit` was not
called. -/
theorem vm_fault_success (AS_NUM_SEG curspl : Nat) (t_vmspace : Option addrspace)
    (faulttype faultaddress : Nat)
    (h : (vm_fault AS_NUM_SEG curspl t_vmspace faulttype faultaddress).ret = some 0) :
    ∃ as s, t_vmspace = some as ∧
      ((faulttype = VM_FAULT_READ ∧
          as_valid_read_addr AS_NUM_SEG as (faultaddress &&& PAGE_FRAME) ≠ 0) ∨
        (faulttype = VM_FAULT_WRITE ∧
          as_valid_write_addr AS_NUM_SEG as (faultaddress &&& PAGE_FRAME) ≠ 0)) ∧
      as_get_segment AS_NUM_SEG as (faultaddress &&& PAGE_FRAME) = some s ∧
      vm_fault AS_NUM_SEG curspl t_vmspace faulttype faultaddress
        = { ret := some 0, spl := curspl,
            events := [vm_event.pt_page_in (faultaddress &&& PAGE_FRAME) s] } ∧
      (vm_fault_steps AS_NUM_SEG curspl t_vmspace faulttype faultaddress).steps
        = [vm_step.splhigh, vm_step.splx curspl,
            vm_step.call (vm_event.pt_page_in (faultaddress &&& PAGE_FRAME) s)] ∧
      vm_event.thread_exit ∉
        (vm_fault AS_NUM_SEG curspl t_vmspace faulttype faultaddress).events := by
  have hne : some EFAULT ≠ some 0 := by decide
  have hne2 : some EINVAL ≠ some 0 := by decide
  have hp : ∀ as, (vm_fault_page_in AS_NUM_SEG curspl as (faultaddress &&& PAGE_FRAME)).ret
        = some 0 →
      ∃ s, as_get_segment AS_NUM_SEG as (faultaddress &&& PAGE_FRAME) = some s ∧
        vm_fault_page_in AS_NUM_SEG curspl as (faultaddress &&& PAGE_FRAME)
          = { ret := some 0, spl := curspl,
              events := [vm_event.pt_page_in (faultaddress &&& PAGE_FRAME) s] } ∧
        (vm_fault_page_in_steps AS_NUM_SEG curspl as (faultaddress &&& PAGE_FRAME)).steps
          = [vm_step.splhigh, vm_step.splx curspl,
              vm_step.call (vm_event.pt_page_in (faultaddress &&& PAGE_FRAME) s)] := by
    intro as hr
    unfold vm_fault_page_in at hr ⊢
    unfold vm_fault_page_in_steps
    cases hg : as_get_segment AS_NUM_SEG as (faultaddress &&& PAGE_FRAME) with
    | none =>
      rw [hg] at hr
      exact absurd hr (by simp)
    | some s => exact ⟨s, rfl, rfl, rfl⟩
  cases t_vmspace with
  | none => exact absurd h hne
  | some as =>
    simp only [vm_fault] at h
    by_cases h1 : faulttype = VM_FAULT_READONLY
    · rw [if_pos h1] at h
      exact absurd h hne
    · rw [if_neg h1] at h
      by_cases h2 : faulttype = VM_FAULT_WRITE
      · rw [if_pos h2] at h
        by_cases hv : as_valid_write_addr AS_NUM_SEG as (faultaddress &&& PAGE_FRAME) = 0
        · rw [if_pos hv] at h
          exact absurd h hne
        · rw [if_neg hv] at h
          obtain ⟨s, hs, he, hst⟩ := hp as h
          have hf : vm_fault AS_NUM_SEG curspl (some as) faulttype faultaddress
              = vm_fault_page_in AS_NUM_SEG curspl as (faultaddress &&& PAGE_FRAME) := by
            simp only [vm_fault, if_neg h1, if_pos h2, if_neg hv]
          have hfs : vm_fault_steps AS_NUM_SEG curspl (some as) faulttype faultaddress
              = vm_fault_page_in_steps AS_NUM_SEG curspl as (faultaddress &&& PAGE_FRAME) := by
            simp only [vm_fault_steps, if_neg h1, if_pos h2, if_neg hv]
          refine ⟨as, s, rfl, Or.inr ⟨h2, hv⟩, hs, by rw [hf, he], by rw [hfs, hst], ?_⟩
          rw [hf, he]
          simp
      · rw [if_neg h2] at h
        by_cases h3 : faulttype = VM_FAULT_READ
        · rw [if_pos h3] at h
          by_cases hv : as_valid_read_addr AS_NUM_SEG as (faultaddress &&& PAGE_FRAME) = 0
          · rw [if_pos hv] at h
            exact absurd h hne
          · rw [if_neg hv] at h
            obtain ⟨s, hs, he, hst⟩ := hp as h
            have hf : vm_fault AS_NUM_SEG curspl (some as) faulttype faultaddress
                = vm_fault_page_in AS_NUM_SEG curspl as (faultaddress &&& PAGE_FRAME) := by
              simp only [vm_fault, if_neg h1, if_neg h2, if_pos h3, if_neg hv]
            have hfs : vm_fault_steps AS_NUM_SEG curspl (some as) faulttype faultaddress
                = vm_fault_page_in_steps AS_NUM_SEG curspl as (faultaddress &&& PAGE_FRAME) := by
              simp only [vm_fault_steps, if_neg h1, if_neg h2, if_pos h3, if_neg hv]
            refine ⟨as, s, rfl, Or.inl ⟨h3, hv⟩, hs, by rw [hf, he], by rw [hfs, hst], ?_⟩
            rw [hf, he]
            simp
        · rw [if_neg h3] at h
          exact absurd h hne2

/-- A read fault at `0x1fff` on the scenario address space returns 0. -/
theorem vm_fault_success_witness :
    (vm_fault 3 7 (some scenario_as) VM_FAULT_READ 0x1fff).ret = some 0 ∧
    ∃ as s, some scenario_as = some as ∧
      ((VM_FAULT_READ = VM_FAULT_READ ∧
          as_valid_read_addr 3 as (0x1fff &&& PAGE_FRAME) ≠ 0) ∨
        (VM_FAULT_READ = VM_FAULT_WRITE ∧
          as_valid_write_addr 3 as (0x1fff &&& PAGE_FRAME) ≠ 0)) ∧
      as_get_segment 3 as (0x1fff &&& PAGE_FRAME) = some s ∧
      vm_fault 3 7 (some scenario_as) VM_FAULT_READ 0x1fff
        = { ret := some 0, spl := 7,
            events := [vm_event.pt_page_in (0x1fff &&& PAGE_FRAME) s] } ∧
      (vm_fault_steps 3 7 (some scenario_as) VM_FAULT_READ 0x1fff).steps
        = [vm_step.splhigh, vm_step.splx 7,
            vm_step.call (vm_event.pt_page_in (0x1fff &&& PAGE_FRAME) s)] ∧
      vm_event.thread_exit ∉ (vm_fault 3 7 (some scenario_as) VM_FAULT_READ 0x1fff).events :=
  ⟨by decide, vm_fault_success 3 7 (some scenario_as) VM_FAULT_READ 0x1fff (by decide)⟩

/-! ## Activation -/

/-- C14: `as_activate(as)` always ends with `last_addrspace = as`; it calls
`tlb_context_switch`, once, exactly when `last_addrspace` was non-`NULL` and
different from `as`, and makes no call otherwise; with `last_addrspace = NULL`
(the first activation after boot) it makes none. -/
theorem as_activate_spec (last_addrspace as : Option Nat) :
    (as_activate last_addrspace as).1 = as ∧
    ((as_activate last_addrspace as).2 = [vm_event.tlb_context_switch] ↔
      (last_addrspace ≠ none ∧ last_addrspace ≠ as)) ∧
    ((as_activate last_addrspace as).2 = [] ↔
      ¬ (last_addrspace ≠ none ∧ last_addrspace ≠ as)) ∧
    ((as_activate last_addrspace as).2.count vm_event.tlb_context_switch =
      if last_addrspace ≠ none ∧ last_addrspace ≠ as then 1 else 0) ∧
    (as_activate none as).2 = [] := by
  refine ⟨rfl, ?_, ?_, ?_, ?_⟩
  · unfold as_activate
    by_cases h : last_addrspace ≠ none ∧ last_addrspace ≠ as
    · simp [if_pos h, h]
    · simp [if_neg h, h]
  · unfold as_activate
    by_cases h : last_addrspace ≠ none ∧ last_addrspace ≠ as
    · simp [if_pos h, h]
    · simp [if_neg h, h]
  · unfold as_activate
    by_cases h : last_addrspace ≠ none ∧ last_addrspace ≠ as
    · simp [if_pos h]
    · simp [if_neg h]
  · simp [as_activate]

/-- C15, as the code has it: in `as_activate(A); as_activate(A)` the second
call makes no TLB invalidation, so the pair makes at most one; in
`as_activate(A); as_activate(B)` with `A` non-`NULL` and `B ≠ A` the second
call makes exactly one, and the pair makes one when `last_addrspace` was
`NULL` or `A` on entry and two otherwise. -/
theorem as_activate_twice (last A B : Option Nat) :
    (as_activate (as_activate last A).1 A).2 = [] ∧
    (activate_pair last A A).count vm_event.tlb_context_switch ≤ 1 ∧
    (A ≠ none → B ≠ A →
      (as_activate (as_activate last A).1 B).2 = [vm_event.tlb_context_switch] ∧
      (activate_pair last A B).count vm_event.tlb_context_switch =
        if last = none ∨ last = A then 1 else 2) := by
  refine ⟨?_, ?_, ?_⟩
  · simp [as_activate]
  · unfold activate_pair as_activate
    by_cases h : last ≠ none ∧ last ≠ A
    · simp [h]
    · simp [h]
  · intro hA hB
    have hBA : A ≠ B := fun e => hB e.symm
    unfold activate_pair as_activate
    by_cases h : last = none ∨ last = A
    · have h2 : ¬ (last ≠ none ∧ last ≠ A) := by
        rintro ⟨h3, h4⟩
        rcases h with h | h
        · exact h3 h
        · exact h4 h
      simp only [if_neg h2, if_pos h, if_pos (And.intro hA hBA)]
      simp
    · have h2 : last ≠ none ∧ last ≠ A := by
        constructor
        · intro e
          exact h (Or.inl e)
        · intro e
          exact h (Or.inr e)
      simp only [if_pos h2, if_neg h, if_pos (And.intro hA hBA)]
      simp

/-- Two address spaces at the addresses 2 and 3, activated after boot. -/
theorem as_activate_twice_witness :
    (some 2 : Option Nat) ≠ none ∧ (some 3 : Option Nat) ≠ some 2 ∧
    (as_activate (as_activate none (some 2)).1 (some 3)).2 = [vm_event.tlb_context_switch] ∧
    (activate_pair none (some 2) (some 3)).count vm_event.tlb_context_switch = 1 := by
  have key := (as_activate_twice none (some 2) (some 3)).2.2 (by decide) (by decide)
  exact ⟨by decide, by decide, key.1, by decide⟩

/-- C15 as stated fails: started with `last_addrspace` at a third address
space, `as_activate(A); as_activate(B)` with `A ≠ B` makes two TLB
invalidations. -/
theorem as_activate_pair_counterexample :
    (some 2 : Option Nat) ≠ some 3 ∧
    ¬ ((activate_pair (some 1) (some 2) (some 3)).count vm_event.tlb_context_switch = 1) := by
  decide

/-! ## The alignment against the reference rule -/

/-- Rounding up to whole pages by `ceil_pages` is the `(n + PAGE_SIZE - 1) /
PAGE_SIZE` of the code. -/
theorem ceil_pages_eq (n : Nat) : ceil_pages n = (n + PAGE_SIZE - 1) / PAGE_SIZE := by
  unfold ceil_pages
  simp only [PAGE_SIZE]
  split <;> omega

/-- `ceil_pages n` is the least number of pages that hold `n` bytes. -/
theorem ceil_pages_least (n : Nat) :
    n ≤ ceil_pages n * PAGE_SIZE ∧ ∀ m, n ≤ m * PAGE_SIZE → ceil_pages n ≤ m := by
  rw [ceil_pages_eq]
  simp only [PAGE_SIZE]
  refine ⟨by omega, fun m hm => by omega⟩

/-- Without 32-bit overflow the alignment of the code is the reference rule. -/
theorem align_region_eq_reference (vaddr sz : Nat) (hv : vaddr < WORD)
    (hs : sz + vaddr % PAGE_SIZE + PAGE_SIZE - 1 < WORD) :
    align_region vaddr sz = align_region_reference vaddr sz := by
  rw [align_region_eq vaddr sz hv]
  unfold align_region_reference
  rw [ceil_pages_eq]
  simp only [PAGE_SIZE, WORD] at hv hs ⊢
  have h1 : (sz + vaddr % 4096) % 2 ^ 32 = sz + vaddr % 4096 := Nat.mod_eq_of_lt (by omega)
  rw [h1]
  have h2 : (sz + vaddr % 4096 + 4096 - 1) % 2 ^ 32 = sz + vaddr % 4096 + 4096 - 1 :=
    Nat.mod_eq_of_lt (by omega)
  rw [h2]
  have h3 : vaddr / 4096 * 4096 = vaddr - vaddr % 4096 := by omega
  rw [h3]

/-- C19: when no 32-bit operation of the alignment overflows, a call of
`as_define_region` that returns 0 stores exactly the reference rule,
`vbase = vaddr - vaddr mod PAGE_SIZE` and
`size = ceil((sz + vaddr mod PAGE_SIZE) / PAGE_SIZE)`; the stored segment
covers `[vaddr, vaddr + sz)`, its end is less than `PAGE_SIZE` beyond
`vaddr + sz`, every page-aligned range that covers the region contains it, a
page-aligned `(vaddr, sz)` is stored unchanged, and `sz = 0` at an aligned
`vaddr` gives `size = 0`. -/
theorem as_define_region_alignment (AS_NUM_SEG : Nat)
    (pt_create : segment → Option pagetable) (as : addrspace)
    (vaddr sz flags offset filesz : Nat) (r : region_result)
    (hv : vaddr < WORD) (hs : sz + vaddr % PAGE_SIZE + PAGE_SIZE - 1 < WORD)
    (h : as_define_region AS_NUM_SEG pt_create as vaddr sz flags offset filesz = some r)
    (h0 : r.ret = 0) :
    align_region vaddr sz = align_region_reference vaddr sz ∧
    ((r.as.segments as.num_segments).vbase, (r.as.segments as.num_segments).size)
      = align_region_reference vaddr sz ∧
    (r.as.segments as.num_segments).vbase = vaddr - vaddr % PAGE_SIZE ∧
    (vaddr + sz ≤ (r.as.segments as.num_segments).vbase +
        (r.as.segments as.num_segments).size * PAGE_SIZE ∧
      (r.as.segments as.num_segments).vbase +
        (r.as.segments as.num_segments).size * PAGE_SIZE < vaddr + sz + PAGE_SIZE) ∧
    (∀ m, sz + vaddr % PAGE_SIZE ≤ m * PAGE_SIZE →
      (r.as.segments as.num_segments).size ≤ m) ∧
    (∀ b e, PAGE_SIZE ∣ b → PAGE_SIZE ∣ e → b ≤ vaddr → vaddr + sz ≤ e →
      b ≤ (r.as.segments as.num_segments).vbase ∧
      (r.as.segments as.num_segments).vbase +
        (r.as.segments as.num_segments).size * PAGE_SIZE ≤ e) ∧
    (vaddr % PAGE_SIZE = 0 → sz % PAGE_SIZE = 0 →
      (r.as.segments as.num_segments).vbase = vaddr ∧
      (r.as.segments as.num_segments).size * PAGE_SIZE = sz) ∧
    (vaddr % PAGE_SIZE = 0 → sz = 0 → (r.as.segments as.num_segments).size = 0) := by
  obtain ⟨_, _, pt, _, hr⟩ :=
    as_define_region_ok AS_NUM_SEG pt_create as vaddr sz flags offset filesz r h h0
  have href := align_region_eq_reference vaddr sz hv hs
  have hb : (r.as.segments as.num_segments).vbase = vaddr - vaddr % PAGE_SIZE := by
    rw [hr]
    simp only [if_true, region_segment, href, align_region_reference]
  have hsz : (r.as.segments as.num_segments).size
      = (sz + vaddr % PAGE_SIZE + PAGE_SIZE - 1) / PAGE_SIZE := by
    rw [hr]
    simp only [if_true, region_segment, href, align_region_reference, ceil_pages_eq]
  refine ⟨href, ?_, hb, ?_, ?_, ?_, ?_, ?_⟩
  · rw [hb, hsz]
    simp only [align_region_reference, ceil_pages_eq]
  · rw [hb, hsz]
    simp only [PAGE_SIZE]
    omega
  · intro m hm
    rw [hsz]
    simp only [PAGE_SIZE] at hm ⊢
    omega
  · rintro b e ⟨p, rfl⟩ ⟨q, rfl⟩ hbv hve
    rw [hb, hsz]
    simp only [PAGE_SIZE] at hbv hve ⊢
    omega
  · intro ha hz
    rw [hb, hsz]
    simp only [PAGE_SIZE] at ha hz ⊢
    omega
  · intro ha hz
    rw [hsz]
    simp only [PAGE_SIZE] at ha ⊢
    omega

/-- The region `(0x400123, 0x2345)` on the empty address space: base
`0x400000`, three pages. -/
theorem as_define_region_alignment_witness :
    (0x400123 : Nat) < WORD ∧ 0x2345 + 0x400123 % PAGE_SIZE + PAGE_SIZE - 1 < WORD ∧
    ∃ r, as_define_region 3 pt_create_ok empty_as 0x400123 0x2345 5 0 0x2000 = some r ∧
      r.ret = 0 ∧
      ((r.as.segments 0).vbase, (r.as.segments 0).size) = align_region_reference 0x400123 0x2345 ∧
      align_region_reference 0x400123 0x2345 = (0x400000, 3) := by
  have key := as_define_region_alignment 3 pt_create_ok empty_as 0x400123 0x2345 5 0 0x2000 _
    (by decide) (by decide) rfl rfl
  exact ⟨by decide, by decide, _, rfl, rfl, key.2.1, by decide⟩

/-! ## `as_create` -/

/-- One iteration of the loop of `as_create` leaves every field it knows zero. -/
theorem cleared_segment_eq (old : segment) : cleared_segment old = zero_segment := rfl

/-- The loop of `as_create` clears the slots it visits and no other. -/
theorem as_create_loop_segments (as : addrspace) (k i j : Nat) :
    (as_create_loop as k i).segments j =
      if i ≤ j ∧ j < i + k then zero_segment else as.segments j := by
  induction k generalizing as i with
  | zero =>
    have h : ¬ (i ≤ j ∧ j < i + 0) := by omega
    simp only [as_create_loop, if_neg h]
  | succ k ih =>
    simp only [as_create_loop]
    rw [ih]
    by_cases h1 : i + 1 ≤ j ∧ j < i + 1 + k
    · have h2 : i ≤ j ∧ j < i + (k + 1) := by omega
      rw [if_pos h1, if_pos h2]
    · rw [if_neg h1]
      by_cases h3 : j = i
      · have h2 : i ≤ j ∧ j < i + (k + 1) := by omega
        rw [if_pos h2]
        simp only [h3, if_true, cleared_segment_eq]
      · have h2 : ¬ (i ≤ j ∧ j < i + (k + 1)) := by omega
        rw [if_neg h2]
        simp only [if_neg h3]

/-- What `as_create` establishes: on `NULL` from `kmalloc` it returns `NULL`;
otherwise `num_segments = 0`, `file = NULL`, the slots below
`AS_NUM_SEG - 1` are zero, and every other slot is as `kmalloc` delivered
it. -/
theorem as_create_spec (AS_NUM_SEG : Nat) (raw : addrspace) :
    as_create AS_NUM_SEG none = none ∧
    ∃ as, as_create AS_NUM_SEG (some raw) = some as ∧
      as.num_segments = 0 ∧ as.file = none ∧
      (∀ j, j < AS_NUM_SEG - 1 → as.segments j = zero_segment) ∧
      (∀ j, AS_NUM_SEG - 1 ≤ j → as.segments j = raw.segments j) := by
  refine ⟨rfl, _, rfl, rfl, rfl, ?_, ?_⟩
  · intro j hj
    show (as_create_loop raw (AS_NUM_SEG - 1) 0).segments j = zero_segment
    rw [as_create_loop_segments, if_pos (by omega)]
  · intro j hj
    show (as_create_loop raw (AS_NUM_SEG - 1) 0).segments j = raw.segments j
    rw [as_create_loop_segments, if_neg (by omega)]

/-- C16 fails on the code: when `kmalloc` delivers a block that last held the
scenario address space, `as_create` with `AS_NUM_SEG = 3` succeeds and
returns `num_segments = 0`, `file = NULL` and the slots 0 and 1 cleared, but
the last slot keeps `active = 1` and its page table, so for the stack address
`0x7fff4000` both validity functions return 1 and `as_get_segment` returns
slot 2. -/
theorem as_create_leaves_last_slot :
    (as_create 3 (some scenario_as)).isSome = true ∧
    recycled_as.num_segments = 0 ∧ recycled_as.file = none ∧
    recycled_as.segments 0 = zero_segment ∧ recycled_as.segments 1 = zero_segment ∧
    (recycled_as.segments 2).active = 1 ∧
    (recycled_as.segments 2).pt ≠ none ∧
    as_valid_read_addr 3 recycled_as 0x7fff4000 = 1 ∧
    as_valid_write_addr 3 recycled_as 0x7fff4000 = 1 ∧
    as_get_segment 3 recycled_as 0x7fff4000 = some 2 := by
  decide

/-! ## `as_free_segments` -/

/-- The inner loop releases the entries `j, j + 1, ...` in order. -/
theorem release_loop_eq (pt : pagetable) (k j : Nat) :
    release_loop pt k j =
      (List.range' j k).map (fun x => vm_event.cm_release_frame (pfn_at pt x)) := by
  induction k generalizing j with
  | zero => rfl
  | succ k ih =>
    simp only [release_loop, List.range'_succ, List.map_cons, ih]

/-- The outer loop is the sequence of the slot bodies, in slot order. -/
theorem as_free_segments_loop_eq (as : addrspace) (k i : Nat) :
    as_free_segments_loop as k i =
      ((List.range' i k).map (fun x => free_slot (as.segments x) x)).flatten := by
  induction k generalizing i with
  | zero => rfl
  | succ k ih =>
    simp only [as_free_segments_loop, List.range'_succ, List.map_cons, List.flatten_cons, ih]

/-- The released frames of two call lists in sequence. -/
theorem released_frames_append (l1 l2 : List vm_event) :
    released_frames (l1 ++ l2) = released_frames l1 ++ released_frames l2 := by
  induction l1 with
  | nil => rfl
  | cons e l ih =>
    cases e <;> simp [released_frames, ih]

/-- A list of `cm_release_frame` calls releases exactly its arguments. -/
theorem released_frames_map (l : List Nat) :
    released_frames (l.map vm_event.cm_release_frame) = l := by
  induction l with
  | nil => rfl
  | cons a l ih => simp [released_frames, ih]

/-- The released frames of a sequence of call lists. -/
theorem released_frames_flatten (L : List (List vm_event)) :
    released_frames L.flatten = (L.map released_frames).flatten := by
  induction L with
  | nil => rfl
  | cons l L ih => simp [released_frames_append, ih]

/-- The body of the outer loop on a slot, in terms of the frames recorded for
that slot. -/
theorem free_slot_eq (s : segment) (i : Nat) :
    free_slot s i =
      if s.active ≠ 0 ∧ s.pt ≠ none then
        (recorded_frames s).map vm_event.cm_release_frame ++ [vm_event.pt_destroy i]
      else [] := by
  unfold free_slot recorded_frames
  by_cases ha : s.active ≠ 0
  · cases hp : s.pt with
    | none => simp [ha]
    | some pt =>
      have hc : s.active ≠ 0 ∧ (some pt : Option pagetable) ≠ none := ⟨ha, by simp⟩
      simp only [if_pos ha, if_pos hc]
      rw [release_loop_eq, List.range_eq_range', List.map_map]
      rfl
  · simp [ha]

/-- The body of the outer loop releases exactly the frames recorded for its slot. -/
theorem released_frames_free_slot (s : segment) (i : Nat) :
    released_frames (free_slot s i) = recorded_frames s := by
  rw [free_slot_eq]
  by_cases h : s.active ≠ 0 ∧ s.pt ≠ none
  · rw [if_pos h, released_frames_append, released_frames_map]
    simp [released_frames]
  · rw [if_neg h]
    unfold recorded_frames
    by_cases ha : s.active ≠ 0
    · have hp : s.pt = none := by
        by_contra hne
        exact h ⟨ha, hne⟩
      simp [ha, hp, released_frames]
    · simp [ha, released_frames]

/-- The body of the outer loop on slot `x` destroys the table of slot `i` only
when `x = i` and that slot is active with a page table, and then once. -/
theorem count_pt_destroy_free_slot (s : segment) (i x : Nat) :
    (free_slot s x).count (vm_event.pt_destroy i) =
      if x = i ∧ s.active ≠ 0 ∧ s.pt ≠ none then 1 else 0 := by
  rw [free_slot_eq]
  by_cases h : s.active ≠ 0 ∧ s.pt ≠ none
  · rw [if_pos h, List.count_append]
    have h1 : ((recorded_frames s).map vm_event.cm_release_frame).count (vm_event.pt_destroy i)
        = 0 := by
      rw [List.count_eq_zero]
      intro hmem
      simp at hmem
    rw [h1]
    by_cases hx : x = i
    · simp [hx, h]
    · have h2 : ¬ (x = i ∧ s.active ≠ 0 ∧ s.pt ≠ none) := fun hh => hx hh.1
      rw [if_neg h2]
      simp [List.count_cons, hx]
  · rw [if_neg h]
    have : ¬ (x = i ∧ s.active ≠ 0 ∧ s.pt ≠ none) := fun hh => h hh.2
    simp [this]

/-- The outer loop destroys the table of slot `i` once when it visits `i` and
the slot is active with a page table, and never otherwise. -/
theorem count_pt_destroy_loop (as : addrspace) (k i0 i : Nat) :
    (as_free_segments_loop as k i0).count (vm_event.pt_destroy i) =
      if (i0 ≤ i ∧ i < i0 + k) ∧ (as.segments i).active ≠ 0 ∧ (as.segments i).pt ≠ none
      then 1 else 0 := by
  induction k generalizing i0 with
  | zero =>
    have h : ¬ ((i0 ≤ i ∧ i < i0 + 0) ∧ (as.segments i).active ≠ 0 ∧ (as.segments i).pt ≠ none) :=
      by omega
    simp only [as_free_segments_loop, if_neg h, List.count_nil]
  | succ k ih =>
    simp only [as_free_segments_loop, List.count_append, count_pt_destroy_free_slot, ih]
    by_cases hx : i0 = i
    · subst hx
      by_cases hs : (as.segments i0).active ≠ 0 ∧ (as.segments i0).pt ≠ none
      · have h1 : ¬ ((i0 + 1 ≤ i0 ∧ i0 < i0 + 1 + k) ∧ (as.segments i0).active ≠ 0 ∧
            (as.segments i0).pt ≠ none) := by omega
        have h2 : (i0 ≤ i0 ∧ i0 < i0 + (k + 1)) ∧ (as.segments i0).active ≠ 0 ∧
            (as.segments i0).pt ≠ none := ⟨by omega, hs⟩
        rw [if_pos ⟨rfl, hs⟩, if_neg h1, if_pos h2]
      · have h0 : ¬ (i0 = i0 ∧ (as.segments i0).active ≠ 0 ∧ (as.segments i0).pt ≠ none) :=
          fun hh => hs hh.2
        have h1 : ¬ ((i0 + 1 ≤ i0 ∧ i0 < i0 + 1 + k) ∧ (as.segments i0).active ≠ 0 ∧
            (as.segments i0).pt ≠ none) := by omega
        have h2 : ¬ ((i0 ≤ i0 ∧ i0 < i0 + (k + 1)) ∧ (as.segments i0).active ≠ 0 ∧
            (as.segments i0).pt ≠ none) := fun hh => hs hh.2
        rw [if_neg h0, if_neg h1, if_neg h2]
    · have h0 : ¬ (i0 = i ∧ (as.segments i0).active ≠ 0 ∧ (as.segments i0).pt ≠ none) :=
        fun hh => hx hh.1
      rw [if_neg h0, Nat.zero_add]
      by_cases h1 : (i0 + 1 ≤ i ∧ i < i0 + 1 + k) ∧ (as.segments i).active ≠ 0 ∧
          (as.segments i).pt ≠ none
      · have h2 : (i0 ≤ i ∧ i < i0 + (k + 1)) ∧ (as.segments i).active ≠ 0 ∧
            (as.segments i).pt ≠ none := ⟨by omega, h1.2⟩
        rw [if_pos h1, if_pos h2]
      · have h2 : ¬ ((i0 ≤ i ∧ i < i0 + (k + 1)) ∧ (as.segments i).active ≠ 0 ∧
            (as.segments i).pt ≠ none) := by
          intro hh
          exact h1 ⟨by omega, hh.2⟩
        rw [if_neg h1, if_neg h2]

/-- C17: `as_free_segments` goes through the slots `0 .. AS_NUM_SEG - 1` in
order; for a slot that is active and has a page table it calls
`cm_release_frame` once for each entry `j < pt->size`, in order, and then
`pt_destroy` once; for any other slot it makes no call. The frames released
are exactly the frames recorded in the page tables of the active slots, their
number is the sum of the table sizes, `pt_destroy` is called once for each
such slot and never for another, and no frame is released twice when the
recorded frames are distinct. `as_destroy` is `as_free_segments` followed by
freeing the address space. -/
theorem as_free_segments_spec (AS_NUM_SEG : Nat) (as : addrspace) :
    as_free_segments AS_NUM_SEG as =
      ((List.range AS_NUM_SEG).map (fun i => free_slot (as.segments i) i)).flatten ++
        [vm_event.kfree_segments] ∧
    (∀ i, free_slot (as.segments i) i =
      if (as.segments i).active ≠ 0 ∧ (as.segments i).pt ≠ none then
        (recorded_frames (as.segments i)).map vm_event.cm_release_frame ++
          [vm_event.pt_destroy i]
      else []) ∧
    (∀ i pt, (as.segments i).active ≠ 0 → (as.segments i).pt = some pt →
      recorded_frames (as.segments i) = (List.range pt.size).map (pfn_at pt) ∧
      (recorded_frames (as.segments i)).length = pt.size) ∧
    released_frames (as_free_segments AS_NUM_SEG as) =
      ((List.range AS_NUM_SEG).map (fun i => recorded_frames (as.segments i))).flatten ∧
    (released_frames (as_free_segments AS_NUM_SEG as)).length =
      ((List.range AS_NUM_SEG).map (fun i => (recorded_frames (as.segments i)).length)).sum ∧
    (∀ i, (as_free_segments AS_NUM_SEG as).count (vm_event.pt_destroy i) =
      if i < AS_NUM_SEG ∧ (as.segments i).active ≠ 0 ∧ (as.segments i).pt ≠ none
      then 1 else 0) ∧
    ((((List.range AS_NUM_SEG).map (fun i => recorded_frames (as.segments i))).flatten).Nodup →
      (released_frames (as_free_segments AS_NUM_SEG as)).Nodup) ∧
    as_destroy AS_NUM_SEG as = as_free_segments AS_NUM_SEG as ++ [vm_event.kfree_as] := by
  have hrel : released_frames (as_free_segments AS_NUM_SEG as) =
      ((List.range AS_NUM_SEG).map (fun i => recorded_frames (as.segments i))).flatten := by
    unfold as_free_segments
    rw [released_frames_append, as_free_segments_loop_eq, released_frames_flatten,
      List.map_map, ← List.range_eq_range']
    have e : (released_frames ∘ fun x => free_slot (as.segments x) x)
        = fun i => recorded_frames (as.segments i) := by
      funext x
      exact released_frames_free_slot _ _
    rw [e]
    simp [released_frames]
  refine ⟨?_, fun i => free_slot_eq _ _, ?_, hrel, ?_, ?_, ?_, rfl⟩
  · unfold as_free_segments
    rw [as_free_segments_loop_eq, ← List.range_eq_range']
  · intro i pt ha hp
    have e : recorded_frames (as.segments i) = (List.range pt.size).map (pfn_at pt) := by
      unfold recorded_frames
      rw [if_pos ha, hp]
    exact ⟨e, by rw [e, List.length_map, List.length_range]⟩
  · rw [hrel, List.length_flatten, List.map_map]
    rfl
  · intro i
    unfold as_free_segments
    rw [List.count_append, count_pt_destroy_loop]
    have h1 : [vm_event.kfree_segments].count (vm_event.pt_destroy i) = 0 := by
      simp [List.count_cons]
    rw [h1, Nat.add_zero]
    by_cases h : i < AS_NUM_SEG ∧ (as.segments i).active ≠ 0 ∧ (as.segments i).pt ≠ none
    · rw [if_pos h, if_pos ⟨⟨Nat.zero_le _, by omega⟩, h.2⟩]
    · rw [if_neg h, if_neg]
      intro hh
      exact h ⟨by omega, hh.2⟩
  · intro hnd
    rw [hrel]
    exact hnd

/-- On `paged_as` the recorded frames 5, 6, 7 are distinct; the frames of the
two active slots are released in order, each followed by its `pt_destroy`, and
the stale table of the inactive slot is left alone. -/
theorem as_free_segments_spec_witness :
    (((List.range 3).map (fun i => recorded_frames (paged_as.segments i))).flatten).Nodup ∧
    as_free_segments 3 paged_as =
      [vm_event.cm_release_frame 5, vm_event.cm_release_frame 6, vm_event.pt_destroy 0,
        vm_event.cm_release_frame 7, vm_event.pt_destroy 2, vm_event.kfree_segments] ∧
    (released_frames (as_free_segments 3 paged_as)).Nodup :=
  ⟨by decide, by decide, (as_free_segments_spec 3 paged_as).2.2.2.2.2.2.1 (by decide)⟩

/-! ## States reachable from `as_create` -/

/-- The two ways `as_define_region` returns: 0 with the slot at
`num_segments` occupied, or `EUNIMP` with the address space untouched. -/
theorem as_define_region_cases (AS_NUM_SEG : Nat) (pt_create : segment → Option pagetable)
    (as : addrspace) (vaddr sz flags offset filesz : Nat) (r : region_result)
    (h : as_define_region AS_NUM_SEG pt_create as vaddr sz flags offset filesz = some r) :
    (as.num_segments < AS_NUM_SEG - 1 ∧ r.ret = 0) ∨
    (¬ as.num_segments < AS_NUM_SEG - 1 ∧
      r = { ret := EUNIMP, as := as, events := [vm_event.kprintf] }) := by
  by_cases hn : as.num_segments < AS_NUM_SEG - 1
  · left
    refine ⟨hn, ?_⟩
    unfold as_define_region at h
    rw [if_pos hn] at h
    by_cases ha : (as.segments as.num_segments).active ≠ 0
    · rw [if_pos ha] at h
      exact absurd h (by simp)
    · rw [if_neg ha] at h
      simp only at h
      cases hp : pt_create
          (region_segment (as.segments as.num_segments) vaddr sz flags offset filesz) with
      | none =>
        rw [hp] at h
        exact absurd h (by simp)
      | some pt =>
        rw [hp] at h
        simp only [Option.some.injEq] at h
        rw [← h]
  · right
    refine ⟨hn, ?_⟩
    unfold as_define_region at h
    rw [if_neg hn] at h
    simp only [Option.some.injEq] at h
    exact h.symm

/-- One returning call keeps the invariant of an address space under
construction, `n` being the number of `as_define_region` calls before it. -/
theorem run_call_invariant (AS_NUM_SEG : Nat) (as as1 : addrspace) (c : as_call) (n : Nat)
    (hnum : as.num_segments = min n (AS_NUM_SEG - 1))
    (hact : ∀ i, i < as.num_segments → (as.segments i).active = 1)
    (hfree : ∀ i, as.num_segments ≤ i → i < AS_NUM_SEG - 1 → (as.segments i).active = 0)
    (h : run_call AS_NUM_SEG as c = some as1) :
    as1.num_segments = min (n + count_regions [c]) (AS_NUM_SEG - 1) ∧
    (∀ i, i < as1.num_segments → (as1.segments i).active = 1) ∧
    (∀ i, as1.num_segments ≤ i → i < AS_NUM_SEG - 1 → (as1.segments i).active = 0) := by
  cases c with
  | define_region pt_create vaddr sz flags offset filesz =>
    simp only [run_call, Option.map_eq_some'] at h
    obtain ⟨r, hr, hras⟩ := h
    subst hras
    simp only [count_regions]
    rcases as_define_region_cases AS_NUM_SEG pt_create as vaddr sz flags offset filesz r hr
      with ⟨hn, h0⟩ | ⟨hn, hr2⟩
    · obtain ⟨_, _, pt, _, hrr⟩ :=
        as_define_region_ok AS_NUM_SEG pt_create as vaddr sz flags offset filesz r hr h0
      subst hrr
      refine ⟨?_, ?_, ?_⟩
      · show as.num_segments + 1 = _
        omega
      · intro i hi
        have hi2 : i < as.num_segments + 1 := hi
        by_cases hin : i = as.num_segments
        · simp only [hin, if_true, region_segment]
        · simp only [if_neg hin]
          exact hact i (by omega)
      · intro i hi1 hi2
        have hi3 : as.num_segments + 1 ≤ i := hi1
        have hin : i ≠ as.num_segments := by omega
        simp only [if_neg hin]
        exact hfree i (by omega) hi2
    · subst hr2
      refine ⟨?_, hact, hfree⟩
      show as.num_segments = _
      omega
  | define_stack pt_create =>
    simp only [run_call, Option.some.injEq] at h
    subst h
    simp only [count_regions]
    refine ⟨?_, ?_, ?_⟩
    · show as.num_segments = _
      omega
    · intro i hi
      have hi2 : i < as.num_segments := hi
      have hin : i ≠ AS_NUM_SEG - 1 := by omega
      simp only [as_define_stack, if_neg hin]
      exact hact i hi2
    · intro i hi1 hi2
      have hi3 : as.num_segments ≤ i := hi1
      have hin : i ≠ AS_NUM_SEG - 1 := by omega
      simp only [as_define_stack, if_neg hin]
      exact hfree i hi3 hi2

/-- Counting region calls call by call. -/
theorem count_regions_cons (c : as_call) (cs : List as_call) :
    count_regions (c :: cs) = count_regions [c] + count_regions cs := by
  cases c with
  | define_region _ _ _ _ _ _ =>
    simp only [count_regions]
    omega
  | define_stack _ =>
    simp only [count_regions]
    omega

/-- The invariant is kept along a sequence of calls. -/
theorem run_calls_invariant (AS_NUM_SEG : Nat) (calls : List as_call) :
    ∀ (as as1 : addrspace) (n : Nat),
      as.num_segments = min n (AS_NUM_SEG - 1) →
      (∀ i, i < as.num_segments → (as.segments i).active = 1) →
      (∀ i, as.num_segments ≤ i → i < AS_NUM_SEG - 1 → (as.segments i).active = 0) →
      run_calls AS_NUM_SEG as calls = some as1 →
      as1.num_segments = min (n + count_regions calls) (AS_NUM_SEG - 1) ∧
      (∀ i, i < as1.num_segments → (as1.segments i).active = 1) ∧
      (∀ i, as1.num_segments ≤ i → i < AS_NUM_SEG - 1 → (as1.segments i).active = 0) := by
  induction calls with
  | nil =>
    intro as as1 n hnum hact hfree h
    simp only [run_calls, Option.some.injEq] at h
    subst h
    exact ⟨by simpa [count_regions] using hnum, hact, hfree⟩
  | cons c cs ih =>
    intro as as1 n hnum hact hfree h
    simp only [run_calls] at h
    cases hc : run_call AS_NUM_SEG as c with
    | none =>
      rw [hc] at h
      exact absurd h (by simp)
    | some as2 =>
      rw [hc] at h
      simp only at h
      obtain ⟨h1, h2, h3⟩ := run_call_invariant AS_NUM_SEG as as2 c n hnum hact hfree hc
      have := ih as2 as1 (n + count_regions [c]) h1 h2 h3 h
      rw [count_regions_cons, ← Nat.add_assoc]
      exact this

/-- C20, as the code has it: in every state reached from a successful
`as_create` by a sequence of `as_define_region` and `as_define_stack` calls
that return, `num_segments ≤ AS_NUM_SEG - 1`, `num_segments` is the number of
`as_define_region` calls made so far capped at `AS_NUM_SEG - 1`, the slots
below `num_segments` are active and the slots from `num_segments` up to
`AS_NUM_SEG - 2` are inactive, so the assertion
`segments[num_segments].active == 0` holds whenever `as_define_region`
reaches it. The next `as_define_region` call returns 0 exactly when fewer
than `AS_NUM_SEG - 1` such calls precede it and `pt_create` delivers a page
table, aborts on `assert(pt != NULL)` exactly when fewer precede it and
`pt_create` returns `NULL`, and returns `EUNIMP` without any change when
`AS_NUM_SEG - 1` or more precede it. -/
theorem reachable_invariant (AS_NUM_SEG : Nat) (raw as0 as : addrspace)
    (calls : List as_call)
    (h0 : as_create AS_NUM_SEG (some raw) = some as0)
    (h : run_calls AS_NUM_SEG as0 calls = some as) :
    as.num_segments ≤ AS_NUM_SEG - 1 ∧
    as.num_segments = min (count_regions calls) (AS_NUM_SEG - 1) ∧
    (∀ i, i < as.num_segments → (as.segments i).active = 1) ∧
    (∀ i, as.num_segments ≤ i → i < AS_NUM_SEG - 1 → (as.segments i).active = 0) ∧
    (as.num_segments < AS_NUM_SEG - 1 → (as.segments as.num_segments).active = 0) ∧
    (∀ (pt_create : segment → Option pagetable) (vaddr sz flags offset filesz : Nat),
      ((∃ r, as_define_region AS_NUM_SEG pt_create as vaddr sz flags offset filesz = some r ∧
          r.ret = 0) ↔
        (count_regions calls < AS_NUM_SEG - 1 ∧
          pt_create (region_segment (as.segments as.num_segments) vaddr sz flags offset filesz)
            ≠ none)) ∧
      (as_define_region AS_NUM_SEG pt_create as vaddr sz flags offset filesz = none ↔
        (count_regions calls < AS_NUM_SEG - 1 ∧
          pt_create (region_segment (as.segments as.num_segments) vaddr sz flags offset filesz)
            = none)) ∧
      (AS_NUM_SEG - 1 ≤ count_regions calls →
        as_define_region AS_NUM_SEG pt_create as vaddr sz flags offset filesz
          = some { ret := EUNIMP, as := as, events := [vm_event.kprintf] })) := by
  obtain ⟨_, as0c, hc, hc0, _, hcz, _⟩ := as_create_spec AS_NUM_SEG raw
  rw [h0] at hc
  simp only [Option.some.injEq] at hc
  subst hc
  obtain ⟨hnum, hact, hfree⟩ := run_calls_invariant AS_NUM_SEG calls as0 as 0
    (by rw [hc0]; simp)
    (fun i hi => by rw [hc0] at hi; omega)
    (fun i _ hi => by rw [hcz i hi]; rfl) h
  rw [Nat.zero_add] at hnum
  have hlast : as.num_segments < AS_NUM_SEG - 1 → (as.segments as.num_segments).active = 0 :=
    fun hn => hfree _ (le_refl _) hn
  have hiff : as.num_segments < AS_NUM_SEG - 1 ↔ count_regions calls < AS_NUM_SEG - 1 := by
    omega
  refine ⟨by omega, hnum, hact, hfree, hlast, ?_⟩
  intro pt_create vaddr sz flags offset filesz
  by_cases hn : as.num_segments < AS_NUM_SEG - 1
  · have ha : ¬ (as.segments as.num_segments).active ≠ 0 := by
      rw [hlast hn]
      simp
    have hcnt := hiff.mp hn
    cases hp : pt_create
        (region_segment (as.segments as.num_segments) vaddr sz flags offset filesz) with
    | none =>
      have e : as_define_region AS_NUM_SEG pt_create as vaddr sz flags offset filesz = none := by
        unfold as_define_region
        rw [if_pos hn, if_neg ha]
        simp only [hp]
      rw [e]
      refine ⟨?_, ?_, ?_⟩
      · constructor
        · rintro ⟨r, hr, _⟩
          exact absurd hr (by simp)
        · rintro ⟨_, hne⟩
          exact absurd rfl hne
      · exact ⟨fun _ => ⟨hcnt, rfl⟩, fun _ => rfl⟩
      · intro hge
        omega
    | some pt =>
      have e : ∃ r, as_define_region AS_NUM_SEG pt_create as vaddr sz flags offset filesz
          = some r ∧ r.ret = 0 := by
        unfold as_define_region
        rw [if_pos hn, if_neg ha]
        simp only [hp]
        exact ⟨_, rfl, rfl⟩
      refine ⟨?_, ?_, ?_⟩
      · exact ⟨fun _ => ⟨hcnt, by simp⟩, fun _ => e⟩
      · obtain ⟨r, hr, _⟩ := e
        rw [hr]
        constructor
        · intro hh
          exact absurd hh (by simp)
        · rintro ⟨_, hh⟩
          exact absurd hh (by simp)
      · intro hge
        omega
  · have hcnt : ¬ count_regions calls < AS_NUM_SEG - 1 := fun hh => hn (hiff.mpr hh)
    have e : as_define_region AS_NUM_SEG pt_create as vaddr sz flags offset filesz
        = some { ret := EUNIMP, as := as, events := [vm_event.kprintf] } := by
      unfold as_define_region
      rw [if_neg hn]
    rw [e]
    refine ⟨?_, ?_, fun _ => rfl⟩
    · constructor
      · rintro ⟨r, hr, hr0⟩
        simp only [Option.some.injEq] at hr
        rw [← hr] at hr0
        exact absurd hr0 (show EUNIMP ≠ 0 by decide)
      · rintro ⟨hh, _⟩
        exact absurd hh hcnt
    · constructor
      · intro hh
        exact absurd hh (by simp)
      · rintro ⟨hh, _⟩
        exact absurd hh hcnt

/-- From a recycled block, after two regions and the stack with
`AS_NUM_SEG = 3`, both region slots are taken and a third region is refused
with `EUNIMP`. -/
theorem reachable_invariant_witness :
    ∃ as0 as, as_create 3 (some scenario_as) = some as0 ∧
      run_calls 3 as0
        [as_call.define_region pt_create_ok 0x400000 0x1000 5 0 0x1000,
          as_call.define_stack pt_create_ok,
          as_call.define_region pt_create_ok 0x10000000 0x2000 6 0x1000 0] = some as ∧
      as.num_segments = 2 ∧
      (∀ i, i < as.num_segments → (as.segments i).active = 1) ∧
      as_define_region 3 pt_create_ok as 0x20000000 0x1000 6 0 0
        = some { ret := EUNIMP, as := as, events := [vm_event.kprintf] } := by
  have key := reachable_invariant 3 scenario_as _ _
    [as_call.define_region pt_create_ok 0x400000 0x1000 5 0 0x1000,
      as_call.define_stack pt_create_ok,
      as_call.define_region pt_create_ok 0x10000000 0x2000 6 0x1000 0] rfl rfl
  exact ⟨_, _, rfl, rfl, rfl, key.2.2.1,
    (key.2.2.2.2.2 pt_create_ok 0x20000000 0x1000 6 0 0).2.2 (by decide)⟩

/-- C20 as stated fails: on a freshly created address space with
`AS_NUM_SEG = 3` the first `as_define_region` call does not succeed when
`pt_create` returns `NULL`; the assertion `pt != NULL` aborts it. -/
theorem first_region_call_counterexample :
    (as_create 3 (some empty_as)).isSome = true ∧
    count_regions [] < 3 - 1 ∧
    ¬ ∃ r, as_define_region 3 pt_create_null fresh_as 0x400000 0x1000 5 0 0x1000 = some r ∧
      r.ret = 0 := by
  refine ⟨by decide, by decide, ?_⟩
  rintro ⟨r, hr, _⟩
  exact absurd hr (by simp [as_define_region, pt_create_null, fresh_as, as_create,
    as_create_loop, cleared_segment, empty_as, zero_segment])

/-! ## `as_define_stack` when no page table can be made -/

/-- C10 fails on the code: on a freshly created address space with
`AS_NUM_SEG = 3`, when `pt_create` returns `NULL`, `as_define_stack` still
returns 0 and stores `USERTOP`, and leaves the last slot active with
`vbase = USERTOP - 12 * PAGE_SIZE`, `size = 12`, `writeable = 1` and no page
table; a write fault at the stack address `0x7fffe000` is then validated,
finds slot 2 and calls `pt_page_in` on that slot. -/
theorem as_define_stack_null_table :
    (as_create 3 (some empty_as)).isSome = true ∧
    pt_create_null (stack_segment (fresh_as.segments 2)) = none ∧
    (as_define_stack 3 pt_create_null fresh_as).ret = 0 ∧
    (as_define_stack 3 pt_create_null fresh_as).stackptr = USERTOP ∧
    (as_define_stack 3 pt_create_null fresh_as).events = [vm_event.pt_create 2] ∧
    (stack_without_table_as.segments 2).active = 1 ∧
    (stack_without_table_as.segments 2).vbase = USERTOP - 12 * PAGE_SIZE ∧
    (stack_without_table_as.segments 2).size = 12 ∧
    (stack_without_table_as.segments 2).writeable = 1 ∧
    (stack_without_table_as.segments 2).pt = none ∧
    as_valid_write_addr 3 stack_without_table_as 0x7fffe000 = 1 ∧
    as_get_segment 3 stack_without_table_as 0x7fffe000 = some 2 ∧
    vm_fault 3 0 (some stack_without_table_as) VM_FAULT_WRITE 0x7fffe000
      = { ret := some 0, spl := 0, events := [vm_event.pt_page_in 0x7fffe000 2] } := by
  decide

end AddrSpace
